import Mathlib

/-
  Verification development for the AiChatBot insurance-sales chat bot.

  The repository consists of three campaign state machines
  (Campaign2/tabung_warisan.py, Campaign4/tabung_perubatan.py,
  Campaign5/perlindungan_combo.py) plus a Google-Sheets lead sink
  (Google_Sheet.py).  Each campaign exposes a single facade
  `process_message(user_id, message, ws, user_data)` that mutates a
  per-user session object and returns a response dictionary.

  Modelling conventions used throughout this file:
  * Python floats are modelled as exact rationals; the numeric literals
    occurring in the source (premium tables, factors) are all exactly
    representable decimals, and the only operations used are division,
    subtraction and rounding to two decimals, so the rational model and
    CPython produce the same two-decimal results on every value the
    claims touch.
  * Python round(x, 2) is round-half-to-even at two decimals.
  * Python dictionaries are association lists with insert-or-replace
    update; heterogeneous dictionary values are the Val type below, with
    Python truthiness made explicit.
  * Mutation is explicit state passing: each process function consumes a
    session state and returns (response, new state, attempted lead rows).
  * The external sheet append (which may raise) is an oracle boolean
    `appendOk` passed to the process functions; an unexpected fault at
    the start of the facade try-block is an oracle boolean `fault`.
  * The source duplicates the user-visible message of a response under
    several keys (text / content / response); the model keeps a single
    `content` field for it.
-/

namespace AiChatBot

/-! ## Python string primitives -/

/-- Python str.lower (ASCII case folding, which covers all inputs used). -/
def pyLower (s : String) : String := String.mk (s.data.map Char.toLower)

/-- Python str.strip with no argument: trim whitespace at both ends. -/
def pyStrip (s : String) : String :=
  String.mk (((s.data.dropWhile Char.isWhitespace).reverse.dropWhile Char.isWhitespace).reverse)

/-- Value of a nonempty string of decimal digits. -/
def digitsToNat (l : List Char) : Nat :=
  l.foldl (fun acc c => 10 * acc + (c.toNat - 48)) 0

/-- Python int applied to a string built out of digit characters only
(the campaigns build such strings by filtering); empty string raises. -/
def intOfDigitChars (l : List Char) : Option Nat :=
  if l.isEmpty then none else some (digitsToNat l)

/-- Python int(s) on a free-form string: optional surrounding whitespace,
optional sign, then a nonempty run of digits. -/
def pyInt (s : String) : Option Int :=
  match (pyStrip s).data with
  | '-' :: rest =>
      if rest ≠ [] ∧ rest.all Char.isDigit then some (-(digitsToNat rest : Int)) else none
  | '+' :: rest =>
      if rest ≠ [] ∧ rest.all Char.isDigit then some (digitsToNat rest : Int) else none
  | l =>
      if l ≠ [] ∧ l.all Char.isDigit then some (digitsToNat l : Int) else none

/-- Python str.isdigit for the ASCII inputs involved. -/
def pyIsDigit (s : String) : Bool := !s.isEmpty && s.data.all Char.isDigit

/-- Split a character list on a separator character. -/
def splitChar (sep : Char) : List Char → List (List Char)
  | [] => [[]]
  | c :: rest =>
      let r := splitChar sep rest
      if c = sep then [] :: r
      else
        match r with
        | h :: t => (c :: h) :: t
        | [] => [[c]]

/-- Python float(s) for strings made only of digits and dots (the
campaigns filter inputs down to such strings before calling float). -/
def pyFloatOfDigitsDot (l : List Char) : Option ℚ :=
  match splitChar '.' l with
  | [a] => if a.isEmpty then none else some (digitsToNat a : ℚ)
  | [a, b] =>
      if a.isEmpty ∧ b.isEmpty then none
      else some ((digitsToNat a : ℚ) + (digitsToNat b : ℚ) / (10 ^ b.length))
  | _ => none

/-- Characters kept by the filter `c.isdigit() or c == '.'`. -/
def keepDigitDot (s : String) : List Char :=
  s.data.filter (fun c => c.isDigit || c = '.')

/-- Characters kept by the filter `c.isdigit()`. -/
def keepDigit (s : String) : List Char := s.data.filter Char.isDigit

/-- Python substring containment: needle in hay. -/
def substrIn (needle : String) (hay : String) : Bool :=
  go needle.data hay.data
where
  go (n : List Char) : List Char → Bool
    | [] => n.isEmpty
    | c :: rest => n.isPrefixOf (c :: rest) || go n rest

/-! ## Python rounding and currency formatting -/

/-- Round a rational to the nearest integer, ties to even (the rounding
CPython round() performs). -/
def roundHalfEvenInt (q : ℚ) : Int :=
  let n : Int := ⌊q⌋
  let r : ℚ := q - (n : ℚ)
  if r < 1/2 then n
  else if 1/2 < r then n + 1
  else if n % 2 = 0 then n else n + 1

/-- Python round(x, 2). -/
def pyRound2 (q : ℚ) : ℚ := (roundHalfEvenInt (q * 100) : ℚ) / 100

/-- Insert thousands separators walking a reversed digit list. -/
def commaGroupRev : List Char → Nat → List Char
  | [], _ => []
  | c :: rest, k =>
      if k % 3 = 2 ∧ rest ≠ [] then c :: ',' :: commaGroupRev rest (k + 1)
      else c :: commaGroupRev rest (k + 1)

/-- Render a natural number with comma thousands separators. -/
def commaGroup (n : Nat) : String :=
  String.mk ((commaGroupRev (toString n).data.reverse 0).reverse)

/-- Render n as exactly two digits. -/
def twoDigits (n : Nat) : String :=
  if n < 10 then "0" ++ toString n else toString n

/-- format_currency from the source: "RM " plus the amount with comma
grouping and two decimals (f-string format ,.2f). -/
def format_currency (q : ℚ) : String :=
  let cents := roundHalfEvenInt (q * 100)
  if cents < 0 then
    "RM -" ++ commaGroup ((-cents).toNat / 100) ++ "." ++ twoDigits ((-cents).toNat % 100)
  else
    "RM " ++ commaGroup (cents.toNat / 100) ++ "." ++ twoDigits (cents.toNat % 100)

/-! ## Dictionary values and dictionaries -/

/-- A Python value stored in a session dictionary. -/
inductive Val where
  | vNone
  | vStr (s : String)
  | vInt (n : Int)
  | vRat (q : ℚ)
  | vBool (b : Bool)
deriving DecidableEq, Repr, Inhabited

/-- Python truthiness of a dictionary value. -/
def Val.truthy : Val → Bool
  | .vNone => false
  | .vStr s => !s.isEmpty
  | .vInt n => n ≠ 0
  | .vRat q => q ≠ 0
  | .vBool b => b

/-- Truncate a rational toward zero, as Python int(float) does. -/
def ratTrunc (q : ℚ) : Int := if 0 ≤ q then ⌊q⌋ else -⌊-q⌋

/-- Python int(x) applied to a stored value; none models the raised
ValueError / TypeError. -/
def Val.toPyInt : Val → Option Int
  | .vNone => none
  | .vStr s => pyInt s
  | .vInt n => some n
  | .vRat q => some (ratTrunc q)
  | .vBool b => some (if b then 1 else 0)

/-- Python str(x) applied to a stored value (rationals rendered loosely
as numerator/denominator; no claim depends on that rendering). -/
def Val.pyStr : Val → String
  | .vNone => "None"
  | .vStr s => s
  | .vInt n => toString n
  | .vRat q => toString q.num ++ "/" ++ toString q.den
  | .vBool b => if b then "True" else "False"

/-- A Python dict modelled as an association list with unique keys. -/
abbrev Dict := List (String × Val)

/-- Lookup (dict.get, returning None when absent). -/
def dictGet (d : Dict) (k : String) : Option Val :=
  match d with
  | [] => none
  | (k0, v0) :: rest => if k0 = k then some v0 else dictGet rest k

/-- dict.get with a default value. -/
def dictGetD (d : Dict) (k : String) (dflt : Val) : Val :=
  (dictGet d k).getD dflt

/-- Insert-or-replace a single key. -/
def dictSet (d : Dict) (k : String) (v : Val) : Dict :=
  match d with
  | [] => [(k, v)]
  | (k0, v0) :: rest => if k0 = k then (k0, v) :: rest else (k0, v0) :: dictSet rest k v

/-- dict.update: every key of the second dict overwrites the first. -/
def dictUpdate (d new : Dict) : Dict :=
  new.foldl (fun acc kv => dictSet acc kv.1 kv.2) d

/-- dict.pop(k, None): remove a key if present. -/
def dictPop (d : Dict) (k : String) : Dict :=
  match d with
  | [] => []
  | (k0, v0) :: rest => if k0 = k then rest else (k0, v0) :: dictPop rest k

/-- Truthiness of the or-chain d.get(k) or fallback. -/
def dictGetOr (d : Dict) (k : String) (fallback : Val) : Val :=
  match dictGet d k with
  | some v => if v.truthy then v else fallback
  | none => fallback

/-! ## Inbound messages -/

/-- An inbound message: plain text, or a structured button payload
carrying optional value / text fields. -/
inductive Msg where
  | txt (s : String)
  | payload (value : Option String) (text : Option String)
deriving DecidableEq, Repr

/-- Python str(payload-dict): a faithful-shape rendering of the dict
(braces, quoted keys); no claim depends on the exact characters. -/
def strOfPayload (v t : Option String) : String :=
  let cell (k : String) : Option String → List String
    | some s => ["\x27" ++ k ++ "\x27: \x27" ++ s ++ "\x27"]
    | none => []
  "\x7b" ++ String.intercalate ", " (cell "value" v ++ cell "text" t) ++ "\x7d"

/-- Python or-chain for optional strings: empty and missing are falsy. -/
def orFalsy (v : Option String) (fallback : String) : String :=
  match v with
  | some s => if s.isEmpty then fallback else s
  | none => fallback

/-- Warisan normalization: message.get(value) or message.get(text) or
str(message) for dict messages, str(message) otherwise. -/
def warisanExtract : Msg → String
  | .txt s => s
  | .payload v t => orFalsy v (orFalsy t (strOfPayload v t))

/-- Combo normalization: message.get(value) or message.get(text) or the
empty string for dict messages, str(message) otherwise. -/
def comboExtract : Msg → String
  | .txt s => s
  | .payload v t => orFalsy v (orFalsy t "")

/-- Perubatan normalization: str(message.get(text, empty) or empty)
stripped for dict messages, str(message or empty) stripped otherwise.
The value field of a button payload is never consulted. -/
def perubatanExtract : Msg → String
  | .txt s => pyStrip s
  | .payload _ t => pyStrip (orFalsy t "")

/-- The normalization the spec describes: prefer value, fall back to
text, fall back to the stringified whole payload.  Modelled from the
spec sentence, for comparison with the per-campaign normalizers. -/
def specNormalizePayload (v t : Option String) : String :=
  orFalsy v (orFalsy t (strOfPayload v t))

/-! ## Premium calculators -/

/-- Campaign2 TabungWarisanState.calculate_warisan_premium_estimation:
age only selects a factor; there is no eligibility check and the result
is always numeric. -/
def calculate_warisan_premium_estimation (legacy_amount : ℚ) (age : Int) : ℚ :=
  let base_factor : ℚ := if age ≤ 35 then 48/10 else if age ≤ 45 then 9 else 17
  (legacy_amount / 1000) * base_factor

/-- Campaign4 annual premium table for ages 34 to 64 (basic coverage);
the source dict is read with .get(age, 3951.20). -/
def age_annual_premiums (a : Int) : Option ℚ :=
  if a = 34 then some (18333/10) else if a = 35 then some (18544/10)
  else if a = 36 then some (18969/10) else if a = 37 then some (19310/10)
  else if a = 38 then some (19521/10) else if a = 39 then some (19692/10)
  else if a = 40 then some (20151/10) else if a = 41 then some (21560/10)
  else if a = 42 then some (22310/10) else if a = 43 then some (22940/10)
  else if a = 44 then some (23836/10) else if a = 45 then some (24056/10)
  else if a = 46 then some (25800/10) else if a = 47 then some (26560/10)
  else if a = 48 then some (28000/10) else if a = 49 then some (28620/10)
  else if a = 50 then some (30023/10) else if a = 51 then some (33286/10)
  else if a = 52 then some (36057/10) else if a = 53 then some (37740/10)
  else if a = 54 then some (39512/10) else if a = 55 then some (39512/10)
  else if a = 56 then some (39512/10) else if a = 57 then some (39512/10)
  else if a = 58 then some (47116/10) else if a = 59 then some (51362/10)
  else if a = 60 then some (51362/10) else if a = 61 then some (51362/10)
  else if a = 62 then some (51362/10) else if a = 63 then some (79760/10)
  else if a = 64 then some (92326/10) else none

/-- The base monthly contribution of Campaign4 before the coverage-level
adjustment: banded flat amounts below 34, table value over 12 above. -/
def perubatan_base_monthly (a : Int) : ℚ :=
  if 18 ≤ a ∧ a ≤ 21 then 113
  else if 22 ≤ a ∧ a ≤ 25 then 123
  else if 26 ≤ a ∧ a ≤ 30 then 133
  else if 31 ≤ a ∧ a ≤ 33 then 143
  else ((age_annual_premiums a).getD (39512/10)) / 12

/-- Campaign4 TabungPerubatanCampaign.estimate_medical_premium: returns
(premium, error message); an empty error message signals success. -/
def estimate_medical_premium (age : Option Int) (coverage_level : Int) : ℚ × String :=
  match age with
  | none => (0, "Age is required to estimate premium.")
  | some a =>
    if a < 18 then
      (0, "Sorry, age must be at least 18 to apply for this plan. Umur tidak mencukupi untuk memohon.")
    else if a > 64 then
      (0, "Age must be between 18 and 64 for this plan")
    else
      if coverage_level = 1 then (pyRound2 (perubatan_base_monthly a - 20), "")
      else if coverage_level = 3 then (pyRound2 (perubatan_base_monthly a), "")
      else (0, "Invalid coverage level")

/-- Campaign5 per-package age-band annual premium table (package_bands
in the source); the band key is always one of the four band names. -/
def combo_band_premium (tier : Int) (band : String) : ℚ :=
  if tier = 1 then
    if band = "18-25" then 2400 else if band = "26-35" then 2800
    else if band = "36-44" then 3600 else if band = "45-54" then 4000 else 0
  else if tier = 2 then
    if band = "18-25" then 3500 else if band = "26-35" then 3600
    else if band = "36-44" then 4200 else if band = "45-54" then 5000 else 0
  else
    if band = "18-25" then 4000 else if band = "26-35" then 5400
    else if band = "36-44" then 6300 else if band = "45-54" then 8400 else 0

/-- Campaign5 PerlindunganComboCampaign.calculate_combo_tier: returns
(annual, monthly, error message).  Python compares the age with band
bounds numerically, so the age is taken as a rational here (an int in
every reachable call). -/
def calculate_combo_tier (age : ℚ) (package_tier : Int) :
    Option ℚ × Option ℚ × Option String :=
  if ¬ (package_tier = 1 ∨ package_tier = 2 ∨ package_tier = 3) then
    (none, none, some "Invalid package tier. Please choose 1, 2, or 3.")
  else
    let age_band : Option String :=
      if 18 ≤ age ∧ age ≤ 25 then some "18-25"
      else if 26 ≤ age ∧ age ≤ 35 then some "26-35"
      else if 36 ≤ age ∧ age ≤ 44 then some "36-44"
      else if 45 ≤ age ∧ age ≤ 54 then some "45-54"
      else none
    match age_band with
    | none =>
        (none, none,
         some "Combo plans are typically for ages 18-54. Please consult our advisor for alternative options.")
    | some b =>
        let annual := combo_band_premium package_tier b
        (some annual, some (pyRound2 (annual / 12)), none)

/-! ## Responses, lead rows, step results -/

/-- An outbound response.  The source stores the user-visible message
under duplicated keys (text / content / response); the model keeps one
content field.  Buttons are (label, value) pairs. -/
structure Response where
  rtype : String
  content : String
  buttons : List (String × String) := []
  next_step : Option String := none
  campaign_data : Option Dict := none
  reset_to_main : Bool := false
deriving DecidableEq, Repr, Inhabited

/-- One row handed to append_row_to_sheet; cells may be None. -/
abbrev LeadRow := List (Option Val)

/-- Result of one process_message call: the response, the session state
after the call, and the lead rows whose append was attempted. -/
structure StepResult (σ : Type) where
  resp : Response
  state : σ
  rows : List LeadRow
deriving DecidableEq, Repr

/-- Python or on two dictionary values. -/
def pyOr (a b : Val) : Val := if a.truthy then a else b

/-- A possibly missing dictionary value, with missing read as None. -/
def optValV (o : Option Val) : Val := o.getD Val.vNone

/-- View an optional int field as a Python value. -/
def optIntVal : Option Int → Val
  | some n => Val.vInt n
  | none => Val.vNone

/-- Truthiness of an optional int field (if state.user_age: ...). -/
def optIntTruthy : Option Int → Bool
  | some n => n ≠ 0
  | none => false

/-- Python str of an optional int field (None renders as None). -/
def optIntPyStr : Option Int → String
  | some n => toString n
  | none => "None"

/-! ## Campaign2: Tabung Warisan session state and responses -/

/-- TabungWarisanState. -/
structure WState where
  current_step : String := "welcome"
  user_data : Dict := []
  user_name : Option Val := none
  user_age : Option Int := none
  desired_legacy : Option ℚ := none
  welcome_shown : Bool := false
deriving DecidableEq, Repr, Inhabited

/-- TabungWarisanState.reset(): every field back to its initial value. -/
def wInitial : WState :=
  { current_step := "welcome", user_data := [], user_name := none,
    user_age := none, desired_legacy := none, welcome_shown := false }

/-- One benefit block of the Warisan pitch. -/
structure Benefit where
  title : String
  description : String
  points : List String
deriving DecidableEq, Repr

def warisan_benefits : List Benefit :=
  [{ title := "LIFETIME PROTECTION",
     description := "Your legacy is protected for life.",
     points := ["Guaranteed payout to your beneficiaries",
                "Coverage that lasts your entire lifetime",
                "Financial security for your loved ones"] },
   { title := "WEALTH ACCUMULATION",
     description := "Grow your wealth over time.",
     points := ["Cash value that grows tax-deferred",
                "Potential for long-term growth",
                "Flexible premium payment options"] },
   { title := "PEACE OF MIND",
     description := "Know your family is taken care of.",
     points := ["Financial protection for your loved ones",
                "No medical check-up required",
                "Guaranteed acceptance"] }]

/-- TabungWarisanCampaign._format_benefits. -/
def formatBenefits (bs : List Benefit) : String :=
  String.intercalate "\n"
    ((bs.map (fun b =>
      ("*" ++ b.title ++ "*") :: b.description ::
        (b.points.map (fun p => "• " ++ p)) ++ [""])).flatten)

def warisan_welcome_message : String :=
  "🌟 *Welcome to Tabung Warisan!* 🌟\n\nProtect your family\x27s future with our legacy planning solution. With Tabung Warisan, you can ensure your loved ones are taken care of with guaranteed financial protection and wealth accumulation options."

def warisan_menu_button : List (String × String) :=
  [("🏠 Return to Main Menu", "main_menu")]

def warisan_amount_buttons : List (String × String) :=
  [("RM 500,000", "500000"), ("RM 1,000,000", "1000000"),
   ("RM 1,500,000", "1500000"), ("RM 2,000,000", "2000000"),
   ("Other Amount", "other_amount")]

def warisan_contact_buttons : List (String × String) :=
  [("✅ Yes, contact me", "contact_agent"), ("❌ No thanks", "no_contact")]

/-- TabungWarisanCampaign._get_welcome_response. -/
def warisan_welcome_response : Response :=
  { rtype := "message",
    content := warisan_welcome_message ++ "\n\nWould you like to learn more about the benefits?",
    buttons := [("✅ Yes, tell me more", "yes_benefits"), ("❌ Not now, thanks", "no_thanks")],
    next_step := some "handle_welcome_response" }

/-- TabungWarisanCampaign._get_benefits_response. -/
def warisan_benefits_response : Response :=
  { rtype := "buttons",
    content := formatBenefits warisan_benefits ++ "\n\nWould you like to see how much coverage you can get?",
    buttons := [("✅ Yes, show me", "yes_coverage"), ("❌ Maybe later", "no_thanks")],
    next_step := some "handle_benefits_response" }

/-- The under-18 decline shared by several Warisan branches. -/
def warisan_under18_response : Response :=
  { rtype := "buttons",
    content := "Sorry, Tabung Warisan is only available for users aged 18 and above.\nPlease return to the main menu.",
    buttons := warisan_menu_button,
    next_step := some "main_menu" }

/-- The invalid-age re-prompt of the get_age step. -/
def warisan_invalid_age_response : Response :=
  { rtype := "message",
    content := "Please enter a valid age between 18 and 70.",
    next_step := some "get_age" }

/-- The premium-estimate offer shown once amount and age are known. -/
def warisan_estimate_offer (age : Int) (amount : ℚ) : Response :=
  let premium := calculate_warisan_premium_estimation amount age
  let monthly := premium / 12
  { rtype := "buttons",
    content := "Great! I see you are " ++ toString age ++ " years old and want to leave " ++
      format_currency amount ++ " as a legacy.\n\nYour estimated premium would be:\n- Annual: *" ++
      format_currency premium ++ "*\n- Monthly: *" ++ format_currency monthly ++
      "*\n\nWould you like an agent to contact you to further discuss the plan?",
    buttons := warisan_contact_buttons,
    next_step := some "offer_agent_contact" }

/-- The lead row built by _handle_agent_contact. -/
def warisanLeadRow (s : WState) (contact : String) : LeadRow :=
  let name := pyOr (optValV (dictGet s.user_data "name")) (pyOr (optValV s.user_name) (Val.vStr "N/A"))
  let dob := dictGetD s.user_data "dob" (Val.vStr "")
  let email := dictGetD s.user_data "email" (Val.vStr "")
  let primary_concern := dictGetD s.user_data "primary_concern" (Val.vStr "")
  let life_stage := dictGetD s.user_data "life_stage" (Val.vStr "")
  let dependents := dictGetD s.user_data "dependents" (Val.vStr "")
  let existing_coverage := dictGetD s.user_data "existing_coverage" (Val.vStr "")
  let premium_budget := dictGetD s.user_data "premium_budget" (Val.vStr "")
  let legacy_amount_str := Val.vStr (format_currency (s.desired_legacy.getD 0))
  [some name, some dob, some email, some primary_concern, some life_stage,
   some dependents, some existing_coverage, some premium_budget,
   some (Val.vStr "tabung_warisan"), none, none, some legacy_amount_str,
   none, none, none, none, some (Val.vStr contact)]

/-! ## Campaign2: Tabung Warisan handlers and facade -/

/-- TabungWarisanCampaign._handle_legacy_amount (message already a string
at the call site). -/
def warisan_handle_legacy_amount (s : WState) (message_text : String) :
    Response × WState :=
  if pyLower message_text = "other" ∨ pyLower message_text = "other amount" ∨
      pyLower message_text = "other_amount" then
    ({ rtype := "message",
       content := "Please enter your desired legacy amount (minimum RM 1,000):",
       next_step := some "get_custom_legacy_amount" },
     { s with current_step := "get_custom_legacy_amount" })
  else
    match pyFloatOfDigitsDot (keepDigitDot message_text) with
    | none =>
        ({ rtype := "buttons", content := "Please select a valid legacy amount:",
           buttons := warisan_amount_buttons, next_step := some "get_legacy_amount" }, s)
    | some amount =>
      if amount < 1000 then
        ({ rtype := "buttons",
           content := "The minimum legacy amount is RM 1,000. Please select an amount:",
           buttons := warisan_amount_buttons, next_step := some "get_legacy_amount" }, s)
      else
        let s1 := { s with desired_legacy := some amount }
        if optIntTruthy s1.user_age then
          let age := s1.user_age.getD 0
          if age < 18 then (warisan_under18_response, { s1 with current_step := "main_menu" })
          else if age > 70 then
            (warisan_invalid_age_response, { s1 with current_step := "get_age" })
          else
            (warisan_estimate_offer age amount, { s1 with current_step := "offer_agent_contact" })
        else
          ({ rtype := "message",
             content := "Great! You want to leave " ++ format_currency amount ++
               " as a legacy.\n\nNow, may I know your current age? (18-70 years)",
             next_step := some "get_age" },
           { s1 with current_step := "get_age" })

/-- TabungWarisanCampaign._handle_age (message already a string at the
call site). -/
def warisan_handle_age (s : WState) (message_text : String) :
    Response × WState :=
  match intOfDigitChars (keepDigit message_text) with
  | none => (warisan_invalid_age_response, s)
  | some ageN =>
    let age : Int := ageN
    if age < 18 then (warisan_under18_response, { s with current_step := "main_menu" })
    else if age > 70 then (warisan_invalid_age_response, s)
    else
      let s1 := { s with user_age := some age }
      let premium := calculate_warisan_premium_estimation (s1.desired_legacy.getD 0) age
      let monthly := premium / 12
      ({ rtype := "buttons",
         content := "Based on your age of " ++ toString age ++ " and desired legacy of " ++
           format_currency (s1.desired_legacy.getD 0) ++
           ", your estimated premium would be:\n- Annual: *" ++ format_currency premium ++
           "*\n- Monthly: *" ++ format_currency monthly ++
           "*\n\nWould you like an agent to contact you to further discuss the plan?",
         buttons := warisan_contact_buttons,
         next_step := some "offer_agent_contact" },
       { s1 with current_step := "offer_agent_contact" })

/-- TabungWarisanCampaign._handle_agent_contact.  The sheet append is
attempted inside a try/except whose failure is swallowed, so the
appendOk oracle never influences the returned response or state; the
attempted rows are reported in the result. -/
def warisan_handle_agent_contact (appendOk : Bool) (s : WState) (message : Msg) :
    Response × WState × List LeadRow :=
  let message_value := pyStrip (pyLower (warisanExtract message))
  if message_value = "contact_agent" then
    ({ rtype := "buttons",
       content := "Thank you for your interest in Tabung Warisan! If you wish to return to the main menu, click below.",
       buttons := warisan_menu_button, next_step := some "main_menu" },
     { s with current_step := "main_menu" },
     [warisanLeadRow s "Yes, Contact Requested"])
  else if message_value = "no_contact" then
    ({ rtype := "buttons",
       content := "Thank you for your interest! You may return to the main menu below.",
       buttons := warisan_menu_button, next_step := some "main_menu" },
     { s with current_step := "main_menu" },
     [warisanLeadRow s "No, Contact Declined"])
  else if message_value = "main_menu" ∨ message_value = "restart" then
    ({ rtype := "reset_to_main", content := "Returning to main menu...",
       reset_to_main := true }, wInitial, [])
  else
    ({ rtype := "buttons",
       content := "Would you like an agent to contact you to further discuss the plan?",
       buttons := warisan_contact_buttons, next_step := some "offer_agent_contact" },
     s, [])

/-- The user_data merge at the top of TabungWarisanCampaign.process_message:
the whole dict is merged first, then age is overwritten only if present,
truthy and parseable, then name if present and truthy. -/
def warisanMerge (s : WState) (user_data : Option Dict) : WState :=
  match user_data with
  | none => s
  | some ud =>
    if ud.isEmpty then s
    else
      let s1 := { s with user_data := dictUpdate s.user_data ud }
      let s2 :=
        match dictGet ud "age" with
        | some v =>
          if v.truthy then
            match v.toPyInt with
            | some n => { s1 with user_age := some n }
            | none => s1
          else s1
        | none => s1
      match dictGet ud "name" with
      | some v => if v.truthy then { s2 with user_name := some v } else s2
      | none => s2

/-- The generic-apology response of the Warisan facade except-block. -/
def warisan_apology : Response :=
  { rtype := "message",
    content := "I\x27m sorry, something went wrong. The error has been logged. Let\x27s start over.",
    next_step := some "welcome" }

/-- TabungWarisanCampaign.process_message.  fault injects an unexpected
exception at the start of the try-block; appendOk is the outcome of the
external sheet append (its failure is caught and swallowed at the call
site, so it cannot influence the result). -/
def tabung_warisan_process (fault appendOk : Bool) (s0 : WState) (message : Msg)
    (user_data : Option Dict) : StepResult WState :=
  if fault then ⟨warisan_apology, s0, []⟩
  else
  let s := warisanMerge s0 user_data
  let msg_payload := warisanExtract message
  let msg_lower := pyStrip (pyLower msg_payload)
  if msg_lower = "main_menu" ∨ msg_lower = "restart" ∨ msg_lower = "start" then
    ⟨{ rtype := "reset_to_main",
       content := "Returning to main menu. Let\x27s start again! What\x27s your name?" },
     wInitial, []⟩
  else if s.current_step = "" ∨ s.current_step = "welcome" ∨ s.welcome_shown = false then
    ⟨warisan_welcome_response,
     { s with current_step := "handle_welcome_response", welcome_shown := true }, []⟩
  else if s.current_step = "handle_welcome_response" then
    if msg_lower = "yes" ∨ msg_lower = "yes_benefits" ∨ msg_lower = "yes, tell me more" then
      ⟨warisan_benefits_response, { s with current_step := "handle_benefits_response" }, []⟩
    else if msg_lower = "no" ∨ msg_lower = "no_thanks" ∨ msg_lower = "maybe later" ∨
        msg_lower = "later" then
      ⟨{ rtype := "buttons",
         content := "No problem! If you wish to return to the main menu and restart the bot, click below.",
         buttons := warisan_menu_button }, s, []⟩
    else ⟨warisan_welcome_response, s, []⟩
  else if s.current_step = "handle_benefits_response" then
    if msg_lower = "yes" ∨ msg_lower = "yes_coverage" ∨ msg_lower = "yes, show me" then
      if optIntTruthy s.user_age ∧ s.user_age.getD 0 < 18 then
        ⟨warisan_under18_response, { s with current_step := "main_menu" }, []⟩
      else
        ⟨{ rtype := "buttons",
           content := "Great! To calculate your coverage, I\x27ll need a few details.\n\nHow much would you like to leave as a legacy for your loved ones?",
           buttons := warisan_amount_buttons, next_step := some "get_legacy_amount" },
         { s with current_step := "get_legacy_amount" }, []⟩
    else if msg_lower = "no" ∨ msg_lower = "no_thanks" ∨ msg_lower = "maybe later" ∨
        msg_lower = "later" then
      ⟨{ rtype := "buttons",
         content := "Thank you for your interest in Tabung Warisan! If you wish to return to the main menu, click below.",
         buttons := warisan_menu_button }, s, []⟩
    else ⟨warisan_benefits_response, s, []⟩
  else if s.current_step = "get_legacy_amount" then
    let r := warisan_handle_legacy_amount s msg_payload
    ⟨r.1, r.2, []⟩
  else if s.current_step = "get_custom_legacy_amount" then
    match pyFloatOfDigitsDot (keepDigitDot msg_payload) with
    | none =>
        ⟨{ rtype := "message",
           content := "Please enter a valid amount (e.g., 100000 or 100,000):",
           next_step := some "get_custom_legacy_amount" }, s, []⟩
    | some amount =>
      if amount < 1000 then
        ⟨{ rtype := "message",
           content := "The minimum legacy amount is RM 1,000. Please enter a higher amount:",
           next_step := some "get_custom_legacy_amount" }, s, []⟩
      else
        let s1 := { s with desired_legacy := some amount }
        if optIntTruthy s1.user_age ∧ (18 : Int) ≤ s1.user_age.getD 0 ∧ s1.user_age.getD 0 ≤ (70 : Int) then
          ⟨warisan_estimate_offer (s1.user_age.getD 0) amount,
           { s1 with current_step := "offer_agent_contact" }, []⟩
        else
          ⟨{ rtype := "message",
             content := "Great! You want to leave " ++ format_currency amount ++
               " as a legacy.\n\nNow, may I know your current age? (18-70 years)",
             next_step := some "get_age" },
           { s1 with current_step := "get_age" }, []⟩
  else if s.current_step = "get_age" then
    let r := warisan_handle_age s msg_payload
    ⟨r.1, r.2, []⟩
  else if s.current_step = "offer_agent_contact" then
    let r := warisan_handle_agent_contact appendOk s message
    ⟨r.1, r.2.1, r.2.2⟩
  else if s.current_step = "main_menu" then
    if msg_lower = "main_menu" then
      ⟨{ rtype := "reset_to_main",
         content := "Returning to main menu. Let\x27s start again! What\x27s your name?" },
       wInitial, []⟩
    else
      ⟨{ rtype := "buttons",
         content := "Thank you for your interest! You may return to the main menu below.",
         buttons := warisan_menu_button, next_step := some "main_menu" }, s, []⟩
  else
    ⟨{ rtype := "reset_to_main", content := "Returning to main menu...",
       reset_to_main := true }, wInitial, []⟩

/-! ## Campaign4: Tabung Perubatan session state and responses -/

/-- TabungPerubatanState. -/
structure PState where
  current_step : String := "welcome"
  user_data : Dict := []
  age : Option Int := none
  coverage_level : Option Int := none
  name : Option Val := none
deriving DecidableEq, Repr, Inhabited

/-- The fresh state a user gets after _clear_state removed the session
(the next get_state call recreates a default TabungPerubatanState). -/
def pInitial : PState := {}

/-- Does any of the words occur as a substring of the message. -/
def anySub (words : List String) (hay : String) : Bool :=
  words.any (fun w => substrIn w hay)

def perubatan_welcome_message : String :=
  "🏥 *Welcome to Tabung Perubatan!* 🏥\n\nLet\x27s talk about something important: your health and your savings.\n\nA single hospital stay can cost tens of thousands of Ringgit. This plan is a \x27Medical Fund\x27 that protects your life savings from being wiped out by unexpected medical bills."

def perubatan_plan_explanation : String :=
  "🌟 *What is Tabung Perubatan?*\n\nIt\x27s your personal financial safety net for healthcare. Think of it as a \"Medical Card\" that gives you:\n\n• **Cashless Hospital Admission:** Walk into any of our panel hospitals, focus on getting better. We settle the bill directly. No large upfront payments.\n• **High Annual Limit:** Coverage from RM 180,000 to over RM 1,000,000 per year for surgeries, ICU, room & board, and medication.\n• **Protection for Your Savings:** Shields your family\x27s finances from the shock of a major medical event. Your savings remain for your dreams, not hospital bills."

/-- TabungPerubatanCampaign._get_welcome_response. -/
def perubatan_welcome_response : Response :=
  { rtype := "message",
    content := perubatan_welcome_message ++ "\n\nWould you like to know more about this medical coverage plan?",
    buttons := [("✅ Yes, tell me more", "yes"), ("❌ Not now, thanks", "no")],
    next_step := some "check_interest_response" }

/-- TabungPerubatanCampaign._get_estimation_question (the helper also
sets current_step back to handle_estimation_response). -/
def perubatan_estimation_question : Response :=
  { rtype := "buttons",
    content := "Would you like to see an estimation of the coverage you can receive?",
    buttons := [("✅ Yes, show me an estimate", "yes_estimate"), ("❌ Not now, thanks", "no")] }

def perubatan_menu_button : List (String × String) := [("🏠 Main Menu", "main_menu")]

/-- The reset response shared by restart/main_menu paths of Campaign4. -/
def perubatan_reset_response : Response :=
  { rtype := "reset_to_main", content := "Returning to main menu...",
    reset_to_main := true }

/-- The end-of-conversation farewell of Campaign4. -/
def perubatan_goodbye_response : Response :=
  { rtype := "buttons",
    content := "Understood. If you have any questions about medical coverage in the future, feel free to ask. Stay healthy!",
    buttons := perubatan_menu_button,
    next_step := some "end_conversation" }

/-- The age_info fragment: present only when state.age is truthy. -/
def perubatan_age_info (age : Option Int) : String :=
  if optIntTruthy age then "I see you\x27re " ++ toString (age.getD 0) ++ " years old. " else ""

/-- The coverage-level prompt of the check_interest estimate shortcut
(plain button labels). -/
def perubatan_coverage_prompt_plain (age : Option Int) : Response :=
  { rtype := "buttons",
    content := perubatan_age_info age ++ "Please select your desired coverage level:",
    buttons := [("Basic (RM180k/year)", "1"), ("Comprehensive (RM1M+/year)", "3")],
    next_step := some "get_coverage_level" }

/-- The coverage-level prompt of handle_estimation_response (labels with
hospital emoji). -/
def perubatan_coverage_prompt_emoji (age : Option Int) : Response :=
  { rtype := "buttons",
    content := perubatan_age_info age ++ "Please select your desired coverage level:",
    buttons := [("🏥 Basic (RM180k/year)", "1"), ("🏥🏥🏥 Comprehensive (RM1M+/year)", "3")],
    next_step := some "get_coverage_level" }

/-- The invalid-coverage re-prompt of the get_coverage_level except arm. -/
def perubatan_invalid_coverage_response : Response :=
  { rtype := "buttons",
    content := "Please select a valid coverage level.\n\n1. Basic (RM180k/year)\n2. Comprehensive (RM1M+/year)",
    buttons := [("Basic (RM180k/year)", "1"), ("Comprehensive (RM1M+/year)", "3")],
    next_step := some "get_coverage_level" }

/-- The under-18 block of handle_estimation_response. -/
def perubatan_under18_response : Response :=
  { rtype := "buttons",
    content := "Sorry,Tabung Perubatan is only available for users aged 18 and above.\nYou cannot continue with this campaign.",
    buttons := perubatan_menu_button,
    next_step := some "end_conversation" }

/-- The lead row built in the offer_agent_contact branches of Campaign4. -/
def perubatanLeadRow (s : PState) (contact : String) : LeadRow :=
  let name := dictGetD s.user_data "name" (pyOr (optValV s.name) (Val.vStr "N/A"))
  let dob := dictGetD s.user_data "dob" (Val.vStr "")
  let email := dictGetD s.user_data "email" (Val.vStr "")
  let primary_concern := dictGetD s.user_data "primary_concern" (Val.vStr "")
  let life_stage := dictGetD s.user_data "life_stage" (Val.vStr "")
  let dependents := dictGetD s.user_data "dependents" (Val.vStr "")
  let existing_coverage := dictGetD s.user_data "existing_coverage" (Val.vStr "")
  let premium_budget := dictGetD s.user_data "premium_budget" (Val.vStr "")
  let coverage_level_str := Val.vStr (match s.coverage_level with
    | some n => if n ≠ 0 then toString n else ""
    | none => "")
  [some name, some dob, some email, some primary_concern, some life_stage,
   some dependents, some existing_coverage, some premium_budget,
   some (Val.vStr "tabung_perubatan"), none, none, none, none, none,
   some coverage_level_str, none, some (Val.vStr contact)]

/-- The user_data merge at the top of Campaign4 process_message (same
shape as the Warisan merge; name is stored raw). -/
def perubatanMerge (s : PState) (user_data : Option Dict) : PState :=
  match user_data with
  | none => s
  | some ud =>
    if ud.isEmpty then s
    else
      let s1 := { s with user_data := dictUpdate s.user_data ud }
      let s2 :=
        match dictGet ud "age" with
        | some v =>
          if v.truthy then
            match v.toPyInt with
            | some n => { s1 with age := some n }
            | none => s1
          else s1
        | none => s1
      match dictGet ud "name" with
      | some v => if v.truthy then { s2 with name := some v } else s2
      | none => s2

/-- The generic-apology response of the Campaign4 facade except-block. -/
def perubatan_apology : Response :=
  { rtype := "message",
    content := "Sorry, an error occurred. Let\x27s start over.",
    campaign_data := some [],
    next_step := some "welcome" }

/-- The premium summary shown after a successful estimate. -/
def perubatan_estimate_summary (s : PState) (coverage_level : Int) (premium : ℚ) : String :=
  let coverage_name := if coverage_level = 1 then "Basic" else "Comprehensive"
  let coverage_amount := if coverage_level = 1 then "RM180,000" else "RM1,000,000"
  let base :=
    "Based on your age (" ++ optIntPyStr s.age ++ ") and selected coverage level (" ++
      coverage_name ++ "):\n\n• Estimated Monthly Premium: " ++ format_currency premium ++
      "\n• Annual Coverage: " ++ coverage_amount
  if optIntTruthy s.age ∧ (61 : Int) ≤ s.age.getD 0 then
    base ++ "\n\n⚠️ **Note for Senior Applicants:**\nMedical insurance for seniors may have certain conditions. Our advisor will explain all details and available options."
  else base

/-- The coverage-level parse of the get_coverage_level step: a digit
string is taken verbatim, otherwise keyword substrings select Basic or
Comprehensive. -/
def perubatan_parse_coverage (message_lower : String) : Option Int :=
  if pyIsDigit message_lower then some (digitsToNat message_lower.data : Int)
  else if anySub ["basic", "180k"] message_lower then some 1
  else if anySub ["comprehensive", "1m", "1m+"] message_lower then some 3
  else none

/-- TabungPerubatanCampaign.process_message.  fault injects an
unexpected exception at the start of the try-block; appendOk is the
outcome of the external sheet append (caught and swallowed at the call
site, so it cannot influence the result). -/
def tabung_perubatan_process (fault appendOk : Bool) (s0 : PState) (message : Msg)
    (user_data : Option Dict) : StepResult PState :=
  if fault then ⟨perubatan_apology, s0, []⟩
  else
  let s := perubatanMerge s0 user_data
  let message_text := perubatanExtract message
  let message_lower := pyLower message_text
  if message_lower = "restart" ∨ message_lower = "main_menu" then
    ⟨perubatan_reset_response, pInitial, []⟩
  else if s.current_step = "welcome" ∨ s.current_step = "" then
    ⟨perubatan_welcome_response, { s with current_step := "check_interest_response" }, []⟩
  else if s.current_step = "check_interest_response" then
    if anySub ["yes", "y", "ya", "yeah", "sure", "ok"] message_lower ∧
        ¬ anySub ["no", "n", "not now", "later"] message_lower then
      ⟨{ rtype := "buttons",
         content := perubatan_plan_explanation ++ "\n\nWould you like to see an estimation of the coverage you can receive?",
         buttons := [("✅ Yes, show me an estimate", "yes_estimate"), ("❌ Not now, thanks", "no")],
         next_step := some "handle_estimation_response" },
       { s with current_step := "handle_estimation_response" }, []⟩
    else if substrIn "estimate" message_lower then
      ⟨perubatan_coverage_prompt_plain s.age, { s with current_step := "get_coverage_level" }, []⟩
    else if anySub ["no", "n", "not now", "later"] message_lower then
      ⟨perubatan_goodbye_response, { s with current_step := "end_conversation" }, []⟩
    else ⟨perubatan_welcome_response, s, []⟩
  else if s.current_step = "ask_estimation" then
    ⟨perubatan_welcome_response, { s with current_step := "welcome" }, []⟩
  else if s.current_step = "handle_estimation_response" then
    if anySub ["yes_estimate", "estimate", "yes", "y", "ya", "sure", "ok"] message_lower ∧
        ¬ anySub ["no", "n", "not now"] message_lower then
      match s.age with
      | some a =>
        if a < 18 then
          ⟨perubatan_under18_response, { s with current_step := "end_conversation" }, []⟩
        else
          ⟨perubatan_coverage_prompt_emoji s.age, { s with current_step := "get_coverage_level" }, []⟩
      | none =>
          ⟨perubatan_coverage_prompt_emoji s.age, { s with current_step := "get_coverage_level" }, []⟩
    else if anySub ["no", "n", "not now", "later"] message_lower then
      ⟨perubatan_goodbye_response, { s with current_step := "end_conversation" }, []⟩
    else
      ⟨perubatan_estimation_question, { s with current_step := "handle_estimation_response" }, []⟩
  else if s.current_step = "get_coverage_level" then
    match perubatan_parse_coverage message_lower with
    | some cl =>
      if cl = 1 ∨ cl = 3 then
        let s1 := { s with coverage_level := some cl }
        let pe := estimate_medical_premium s1.age cl
        if pe.2 ≠ "" then
          ⟨{ rtype := "buttons",
             content := "Sorry, there was an error calculating your premium: " ++ pe.2,
             buttons := perubatan_menu_button, next_step := some "end_conversation" },
           s1, []⟩
        else
          ⟨{ rtype := "buttons",
             content := perubatan_estimate_summary s1 cl pe.1 ++
               "\n\nWould you like an agent to contact you to further discuss the plan?",
             buttons := [("✅ Yes, contact me", "contact_agent"), ("❌ No thanks", "no_contact")],
             next_step := some "offer_agent_contact" },
           { s1 with current_step := "offer_agent_contact" }, []⟩
      else ⟨perubatan_invalid_coverage_response, s, []⟩
    | none => ⟨perubatan_invalid_coverage_response, s, []⟩
  else if s.current_step = "offer_agent_contact" then
    if substrIn "contact_agent" message_lower ∨ substrIn "contact me" message_lower ∨
        substrIn "yes" message_lower then
      ⟨{ rtype := "buttons",
         content := "Great! Our agent will contact you soon. You will also receive an email about further information on the plans we offer.",
         buttons := perubatan_menu_button, next_step := some "contact_confirmed" },
       { s with current_step := "contact_confirmed" },
       [perubatanLeadRow s "Yes, Contact Requested"]⟩
    else if substrIn "no_contact" message_lower ∨
        anySub ["no thanks", "no thank you", "no"] message_lower then
      ⟨{ rtype := "buttons",
         content := "Thank you for your interest in Tabung Perubatan! If you wish to return to the main menu, click below.",
         buttons := perubatan_menu_button, next_step := some "end_options" },
       { s with current_step := "end_options" },
       [perubatanLeadRow s "No, Contact Declined"]⟩
    else if substrIn "other_plans" message_lower ∨ substrIn "other" message_lower then
      ⟨{ rtype := "buttons",
         content := "Here are our other available plans that might interest you:",
         buttons := [("💰 Tabung Warisan", "tabung_warisan"),
                     ("👨‍👩‍👧‍👦 Masa Depan Anak Kita", "masa_depan_anak_kita"),
                     ("💼 Satu Gaji Satu Harapan", "satu_gaji"),
                     ("🏠 Main Menu", "main_menu")],
         next_step := some "show_plans" },
       { s with current_step := "show_plans" }, []⟩
    else if message_lower = "main_menu" ∨ message_lower = "restart" then
      ⟨perubatan_reset_response, pInitial, []⟩
    else
      ⟨{ rtype := "buttons",
         content := "Would you like an agent to contact you to further discuss the plan?",
         buttons := [("✅ Yes, contact me", "contact_agent"), ("❌ No thanks", "no_contact"),
                     ("🏠 Main Menu", "main_menu")],
         next_step := some "offer_agent_contact" }, s, []⟩
  else if s.current_step = "get_contact_info" then
    let contact_name := pyStrip (String.mk (message_text.data.filter (fun c => ¬ c.isDigit)))
    if contact_name.isEmpty then
      ⟨{ rtype := "message", content := "Please provide a valid name.",
         next_step := some "get_contact_info" }, s, []⟩
    else
      ⟨{ rtype := "message",
         content := "Thank you, " ++ contact_name ++ "! Thank you for your interest in Tabung Perubatan! If you wish to return to the main menu, click below. 😊",
         next_step := some "end_conversation" },
       { s with name := some (Val.vStr contact_name), current_step := "end_conversation" }, []⟩
  else if s.current_step = "end_conversation" then
    ⟨{ rtype := "message",
       content := "Thank you for your interest in Tabung Perubatan. Have a great day!",
       next_step := some "end_conversation" }, s, []⟩
  else
    -- Unknown state: the source sets the step to welcome and re-enters
    -- process_message with the literal message start, which lands in the
    -- welcome branch; that tail call is inlined here.
    let s1 := perubatanMerge { s with current_step := "welcome" } user_data
    ⟨perubatan_welcome_response, { s1 with current_step := "check_interest_response" }, []⟩

/-! ## Campaign5: Perlindungan Combo session state and helpers -/

/-- CampaignState of Campaign5. -/
structure CState where
  current_step : String := "welcome"
  user_data : Dict := []
  age : Option Int := none
  package_tier : Option Int := none
deriving DecidableEq, Repr, Inhabited

/-- The fresh state installed by the main_menu navigation command. -/
def cInitial : CState := { current_step := "welcome" }

/-- Python isinstance(x, int) view of a value (bool is an int subclass). -/
def Val.asPyIntStrict : Val → Option Int
  | .vInt n => some n
  | .vBool b => some (if b then 1 else 0)
  | _ => none

/-- The guard age is not None and isinstance(age, int) and age < 18. -/
def valIntUnder18 (v : Val) : Bool :=
  match v.asPyIntStrict with
  | some n => decide (n < 18)
  | none => false

/-- The numeric view of a value for Python numeric comparisons and
float(); none models the TypeError such an operation raises. -/
def Val.toNumQ : Val → Option ℚ
  | .vInt n => some (n : ℚ)
  | .vRat q => some q
  | .vBool b => some (if b then 1 else 0)
  | _ => none

/-- Campaign5 format_currency: float(x) formatted, falling back to a
plain rendering when float() raises. -/
def format_currency_val (v : Val) : String :=
  match v.toNumQ with
  | some q => format_currency q
  | none =>
    match v with
    | .vStr s => (match pyFloatOfDigitsDot (pyStrip s).data with
        | some q => format_currency q
        | none => "RM " ++ v.pyStr)
    | _ => "RM " ++ v.pyStr

/-- package_names of Campaign5. -/
def combo_package_name (t : Int) : Option String :=
  if t = 1 then some "Silver - Essential Protection"
  else if t = 2 then some "Gold - Balanced Protection"
  else if t = 3 then some "Platinum - Comprehensive Protection"
  else none

def combo_welcome_buttons : List (String × String) :=
  [("📚 Learn More", "learn_more"), ("❌ Not Now", "not_now")]

def combo_package_buttons : List (String × String) :=
  [("1️⃣ Silver - Essential Protection", "1"),
   ("2️⃣ Gold - Balanced Protection", "2"),
   ("3️⃣ Platinum - Comprehensive Protection", "3")]

def combo_confirmation_buttons : List (String × String) :=
  [("✅ Yes, Proceed", "yes"), ("❌ No, Choose Another Package", "no")]

def combo_agent_buttons : List (String × String) :=
  [("✅ Yes, Contact Me", "yes"), ("❌ No Thanks", "no")]

def combo_navigation_buttons : List (String × String) :=
  [("🏠 Main Menu", "main_menu")]

def combo_welcome_message : String :=
  "*🛡️ Welcome to Perlindungan Combo - Your Complete Protection Solution*\n\nI can help you find the perfect protection plan that combines:\n• Life Insurance\n• Critical Illness Coverage\n• Medical Protection\n• Accident Coverage\n\nAll in one simple, affordable package. Would you like to learn more about the benefits?"

def combo_benefits_message : String :=
  "💎 *Benefits of Combo Protection:*\n\n• All-in-one coverage: Life, Medical, Critical Illness, Accident\n• Single premium payment - simpler to manage\n• Better value than buying separate policies\n• No coverage gaps - complete protection\n• Guaranteed insurability for all coverage types\n\nWould you like to get a quick estimate of your premium based on your age and desired coverage?"

/-- PerlindunganComboCampaign._get_welcome_response. -/
def combo_welcome_response : Response :=
  { rtype := "buttons", content := combo_welcome_message,
    buttons := combo_welcome_buttons, next_step := some "after_welcome" }

/-- The under-18 block used across Campaign5 branches
(create_button_response with navigation buttons). -/
def combo_under18_response (d : Dict) : Response :=
  { rtype := "buttons",
    content := "Sorry, combo plans are only available for users aged 18 and above. Returning to main menu.",
    buttons := combo_navigation_buttons, campaign_data := some d,
    next_step := some "end_conversation" }

/-- The benefits prompt of after_welcome / show_benefits_response. -/
def combo_benefits_response (d : Dict) : Response :=
  { rtype := "buttons", content := combo_benefits_message,
    buttons := [("✅ Yes, Show My Estimate", "show_estimate"), ("❌ No Thanks", "not_now")],
    next_step := some "show_benefits_response", campaign_data := some d }

/-- The generic-apology response of the Campaign5 facade except-block
(campaign_data echoes the session dict at the fault point). -/
def combo_apology (d : Dict) : Response :=
  { rtype := "message",
    content := "Sorry, an error occurred. Type \x27main_menu\x27 to restart.",
    campaign_data := some d, next_step := some "welcome" }

/-- coverage_details of _get_plan_estimate_message. -/
def combo_coverage_details (t : Int) : String :=
  if t = 1 then "Life: RM 100,000 \n Critical Illness: RM 50,000 \n Medical Card: RM 180,000"
  else if t = 2 then "Life: RM 150,000 \n  Critical Illness: RM 75,000 \n Medical Card: RM 180,000"
  else if t = 3 then "Life: RM 200,000 \n Critical Illness: RM 100,000 \n Medical Card: RM 1,000,000"
  else ""

/-- PerlindunganComboCampaign._get_plan_estimate_message; none models
the ValueError raised when the calculator reports an error, and the
TypeError raised when the stored age or tier is not numeric. -/
def combo_plan_estimate_message (age : Val) (tier : Val) : Option String :=
  match age.toNumQ, tier.asPyIntStrict with
  | some q, some t =>
    match calculate_combo_tier q t with
    | (some annual, some monthly, none) =>
      let base :=
        "🔍 *Your Combo Plan Estimate*\n• Package: " ++
          ((combo_package_name t).getD "Unknown") ++
          "\n• Age: " ++ age.pyStr ++ " years old\n• Annual Premium: " ++
          format_currency annual ++ "\n• Monthly Premium: " ++ format_currency monthly ++
          "\n\nIncludes: \n " ++ combo_coverage_details t ++
          "\n\n💡 This is a rough estimate. Your final premium depends on your health assessment and exact coverage amounts.\n\nWould you like our agent to contact you for a more detailed discussion about your protection needs?"
      let msg := if q < 18 ∨ 60 < q then
          base ++ "\n\n⚠️ **Note:** Combo plans are typically for ages 18-60. Our advisor will explain all available options for you."
        else base
      some msg
    | _ => none
  | _, _ => none

/-- Gregorian calendar validity as enforced by Python date(). -/
def leapYear (y : Int) : Bool := (y % 4 = 0 ∧ y % 100 ≠ 0) ∨ y % 400 = 0

def daysInMonth (y m : Int) : Int :=
  if m = 2 then (if leapYear y then 29 else 28)
  else if m = 4 ∨ m = 6 ∨ m = 9 ∨ m = 11 then 30
  else 31

def validDate (y m d : Int) : Bool :=
  1 ≤ y ∧ y ≤ 9999 ∧ 1 ≤ m ∧ m ≤ 12 ∧ 1 ≤ d ∧ d ≤ daysInMonth y m

/-- A calendar date (year, month, day) standing for date.today(). -/
abbrev Date := Int × Int × Int

/-- PerlindunganComboCampaign.calculate_age_from_dob, with today passed
explicitly (the source reads the real clock). -/
def calculate_age_from_dob (today : Date) (dob_str : String) : Option Int :=
  match (splitChar '/' (pyStrip dob_str).data).map String.mk with
  | [ds, ms, ys] =>
    match pyInt ds, pyInt ms, pyInt ys with
    | some day, some month, some year =>
      if validDate year month day then
        let (ty, tm, td) := today
        let age := ty - year - (if tm < month ∨ (tm = month ∧ td < day) then 1 else 0)
        if 0 ≤ age then some age else none
      else none
    | _, _, _ => none
  | _ => none

/-- The Python or-chain state.age or state.user_data.get(key). -/
def comboAgeVal (s : CState) : Val :=
  pyOr (optIntVal s.age) (optValV (dictGet s.user_data "age"))

def comboTierVal (s : CState) : Val :=
  pyOr (optIntVal s.package_tier) (optValV (dictGet s.user_data "package_tier"))

/-- PerlindunganComboCampaign._append_to_google_sheet: returns whether
the append succeeded along with the attempted rows; missing name/email
or an unavailable/raising sink yield False without propagating. -/
def combo_append_sheet (appendOk : Bool) (s : CState) (package_tier : Val)
    (contact_requested : Bool) : Bool × List LeadRow :=
  if ¬ (optValV (dictGet s.user_data "name")).truthy ∨
      ¬ (optValV (dictGet s.user_data "email")).truthy then
    (false, [])
  else
    let name := dictGetD s.user_data "name" (Val.vStr "N/A")
    let dob := dictGetD s.user_data "dob" (Val.vStr "")
    let email := dictGetD s.user_data "email" (Val.vStr "")
    let primary_concern := dictGetD s.user_data "primary_concern" (Val.vStr "")
    let life_stage := dictGetD s.user_data "life_stage" (Val.vStr "")
    let dependents := dictGetD s.user_data "dependents" (Val.vStr "")
    let existing_coverage := dictGetD s.user_data "existing_coverage" (Val.vStr "")
    let premium_budget := dictGetD s.user_data "premium_budget" (Val.vStr "")
    let contact_status :=
      if contact_requested then "Yes, Contact Requested" else "No, Contact Declined"
    let row : LeadRow :=
      [some name, some dob, some email, some primary_concern, some life_stage,
       some dependents, some existing_coverage, some premium_budget,
       some (Val.vStr "perlindungan_combo"), none, none, none, none, none, none,
       some (Val.vStr package_tier.pyStr), some (Val.vStr contact_status)]
    (appendOk, [row])

/-- The user_data merge at the top of Campaign5 process_message; on a
parseable truthy age the parsed int is also written back into the
session dict. -/
def comboMerge (s : CState) (user_data : Option Dict) : CState :=
  match user_data with
  | none => s
  | some ud =>
    if ud.isEmpty then s
    else
      let s1 := { s with user_data := dictUpdate s.user_data ud }
      let s2 :=
        match dictGet ud "age" with
        | some v =>
          if v.truthy then
            match v.toPyInt with
            | some n =>
                { s1 with age := some n, user_data := dictSet s1.user_data "age" (Val.vInt n) }
            | none => s1
          else s1
        | none => s1
      match dictGet ud "name" with
      | some v => if v.truthy then { s2 with user_data := dictSet s2.user_data "name" v } else s2
      | none => s2

/-! ## Campaign5: Perlindungan Combo facade -/

/-- PerlindunganComboCampaign.process_message.  The session lookup, the
user_data merge, the message normalization and the main_menu command
run before the try-block, so the fault oracle (an unexpected exception
at the start of the try-block) leaves the merged state in place.  today
stands for date.today(), read only by the DOB onboarding branch. -/
def perlindungan_combo_process (fault appendOk : Bool) (today : Date)
    (s0 : CState) (message : Msg) (user_data : Option Dict) : StepResult CState :=
  let s := comboMerge s0 user_data
  let message_content := comboExtract message
  let normalized_msg := pyStrip (pyLower message_content)
  if normalized_msg = "main_menu" then
    ⟨{ rtype := "reset_to_main",
       content := "Welcome back to the main menu! What\x27s your name?",
       next_step := some "get_name" }, cInitial, []⟩
  else if fault then ⟨combo_apology s.user_data, s, []⟩
  else if dictGet s.user_data "next_step" = some (Val.vStr "get_name") then
    let d1 := dictSet (dictSet s.user_data "name" (Val.vStr message_content))
      "next_step" (Val.vStr "get_dob")
    ⟨{ rtype := "message",
       content := "Hi " ++ message_content ++ "! What is your date of birth? (DD/MM/YYYY)",
       next_step := some "get_dob", campaign_data := some d1 },
     { s with user_data := d1, current_step := "get_dob" }, []⟩
  else if dictGet s.user_data "next_step" = some (Val.vStr "get_dob") then
    let d1 := dictSet s.user_data "dob" (Val.vStr message_content)
    match calculate_age_from_dob today message_content with
    | some calculated_age =>
      let d2 := dictSet d1 "age" (Val.vInt calculated_age)
      if calculated_age < 18 then
        ⟨combo_under18_response d2,
         { s with user_data := d2, age := some calculated_age, current_step := "welcome" }, []⟩
      else
        let d3 := dictSet d2 "next_step" (Val.vStr "get_email")
        ⟨{ rtype := "message", content := "What is your email address?",
           next_step := some "get_email", campaign_data := some d3 },
         { s with user_data := d3, age := some calculated_age, current_step := "get_email" }, []⟩
    | none =>
      let d3 := dictSet d1 "next_step" (Val.vStr "get_email")
      ⟨{ rtype := "message", content := "What is your email address?",
         next_step := some "get_email", campaign_data := some d3 },
       { s with user_data := d3, current_step := "get_email" }, []⟩
  else if dictGet s.user_data "next_step" = some (Val.vStr "get_email") then
    let d1 := dictSet (dictSet s.user_data "email" (Val.vStr message_content))
      "next_step" (Val.vStr "get_age")
    ⟨{ rtype := "message",
       content := "How old are you? (Or confirm if we calculated it from your DOB.)",
       next_step := some "get_age", campaign_data := some d1 },
     { s with user_data := d1, current_step := "get_age" }, []⟩
  else if dictGet s.user_data "next_step" = some (Val.vStr "get_age") then
    match pyInt message_content with
    | some a =>
      if a < 18 then
        ⟨combo_under18_response s.user_data, { s with current_step := "welcome" }, []⟩
      else if a ≤ 60 then
        let d1 := dictPop (dictSet s.user_data "age" (Val.vInt a)) "next_step"
        ⟨combo_welcome_response,
         { s with user_data := d1, age := some a, current_step := "after_onboarding" }, []⟩
      else
        ⟨{ rtype := "message",
           content := "Age must be between 18-60 for combo plans. Please enter a valid age:",
           next_step := some "get_age", campaign_data := some s.user_data }, s, []⟩
    | none =>
      ⟨{ rtype := "message",
         content := "Please enter a valid number for your age (18-60):",
         next_step := some "get_age", campaign_data := some s.user_data }, s, []⟩
  else if s.current_step = "welcome" ∨ normalized_msg = "start" ∨ normalized_msg = "begin" then
    if ¬ (optValV (dictGet s.user_data "name")).truthy then
      let d1 := dictSet s.user_data "next_step" (Val.vStr "get_name")
      ⟨{ rtype := "message", content := "Welcome! Let\x27s start. What is your name?",
         next_step := some "get_name", campaign_data := some d1 },
       { s with user_data := d1 }, []⟩
    else
      ⟨combo_welcome_response, { s with current_step := "after_welcome" }, []⟩
  else if s.current_step = "after_welcome" then
    if normalized_msg = "learn_more" ∨ normalized_msg = "show_benefits" ∨
        normalized_msg = "benefits" ∨ normalized_msg = "yes" then
      ⟨combo_benefits_response s.user_data, { s with current_step := "show_benefits_response" }, []⟩
    else if normalized_msg = "not_now" ∨ normalized_msg = "no" ∨ normalized_msg = "later" then
      ⟨{ rtype := "buttons",
         content := "Understood. Feel free to ask later. Would you like to return to the main menu?",
         buttons := combo_navigation_buttons, campaign_data := some s.user_data,
         next_step := some "end_conversation" },
       { s with current_step := "end_conversation" }, []⟩
    else ⟨combo_welcome_response, s, []⟩
  else if s.current_step = "show_benefits_response" then
    if normalized_msg = "show_estimate" then
      let ageV := comboAgeVal s
      if valIntUnder18 ageV then
        ⟨combo_under18_response s.user_data, { s with current_step := "welcome" }, []⟩
      else if ¬ ageV.truthy then
        ⟨{ rtype := "message",
           content := "To show your estimate, please enter your age (18-60):",
           next_step := some "get_age_manually", campaign_data := some s.user_data },
         { s with current_step := "get_age_manually" }, []⟩
      else
        match ageV.toNumQ with
        | none => ⟨combo_apology s.user_data, s, []⟩
        | some q =>
          if ¬ ((18 : ℚ) ≤ q ∧ q ≤ 60) then
            ⟨{ rtype := "message",
               content := "To show your estimate, please enter your age (18-60):",
               next_step := some "get_age_manually", campaign_data := some s.user_data },
             { s with current_step := "get_age_manually" }, []⟩
          else
            ⟨{ rtype := "buttons",
               content := "Great! Based on your age (" ++ ageV.pyStr ++ "), please select a protection package:",
               buttons := combo_package_buttons, next_step := some "get_package",
               campaign_data := some s.user_data },
             { s with current_step := "get_package" }, []⟩
    else if normalized_msg = "not_now" then
      ⟨{ rtype := "buttons",
         content := "Understood. Would you like to return to the main menu?",
         buttons := combo_navigation_buttons, campaign_data := some s.user_data,
         next_step := some "end_conversation" },
       { s with current_step := "end_conversation" }, []⟩
    else ⟨combo_benefits_response s.user_data, s, []⟩
  else if s.current_step = "get_age_manually" then
    match pyInt normalized_msg with
    | some a =>
      if a < 18 then
        ⟨combo_under18_response s.user_data, { s with current_step := "welcome" }, []⟩
      else if a ≤ 60 then
        let d1 := dictSet s.user_data "age" (Val.vInt a)
        ⟨{ rtype := "buttons",
           content := "Great! You are " ++ toString a ++ " years old.\n\nPlease select a protection package:",
           buttons := combo_package_buttons, next_step := some "get_package",
           campaign_data := some d1 },
         { s with user_data := d1, age := some a, current_step := "get_package" }, []⟩
      else
        ⟨{ rtype := "message",
           content := "Age must be 18-60. Please enter a valid age:",
           next_step := some "get_age_manually", campaign_data := some s.user_data }, s, []⟩
    | none =>
      ⟨{ rtype := "message",
         content := "Please enter a valid number (18-60):",
         next_step := some "get_age_manually", campaign_data := some s.user_data }, s, []⟩
  else if s.current_step = "get_package" then
    let age_check := comboAgeVal s
    if valIntUnder18 age_check then
      ⟨combo_under18_response s.user_data, { s with current_step := "welcome" }, []⟩
    else if pyIsDigit normalized_msg ∧
        (digitsToNat normalized_msg.data = 1 ∨ digitsToNat normalized_msg.data = 2 ∨
         digitsToNat normalized_msg.data = 3) then
      let package_tier : Int := digitsToNat normalized_msg.data
      let s1 := { s with
        package_tier := some package_tier,
        user_data := dictSet s.user_data "package_tier" (Val.vInt package_tier) }
      let ageV := comboAgeVal s1
      if ¬ ageV.truthy then
        ⟨{ rtype := "message", content := "Please enter your age first (18-60):",
           next_step := some "get_age_manually", campaign_data := some s1.user_data },
         { s1 with current_step := "get_age_manually" }, []⟩
      else
        match ageV.toNumQ with
        | none => ⟨combo_apology s1.user_data, s1, []⟩
        | some q =>
          match calculate_combo_tier q package_tier with
          | (_, _, some err) =>
            ⟨{ rtype := "message",
               content := "Error: " ++ err ++ ". Please try again.",
               next_step := some "get_package", campaign_data := some s1.user_data }, s1, []⟩
          | (annualO, monthlyO, none) =>
            let annual := annualO.getD 0
            let monthly := monthlyO.getD 0
            let package_name := (combo_package_name package_tier).getD
              ("Package " ++ toString package_tier)
            let d1 := dictUpdate s1.user_data
              [("package_choice", Val.vInt package_tier),
               ("package_name", Val.vStr package_name),
               ("annual_premium", Val.vRat annual),
               ("monthly_premium", Val.vRat monthly)]
            let s2 := { s1 with user_data := d1, current_step := "confirm_package" }
            match combo_plan_estimate_message ageV (Val.vInt package_tier) with
            | some estimate_msg =>
              ⟨{ rtype := "buttons",
                 content := estimate_msg ++ "\n\nWould you like to proceed with this plan?",
                 buttons := combo_confirmation_buttons, campaign_data := some d1,
                 next_step := some "confirm_package" }, s2, []⟩
            | none => ⟨combo_apology s2.user_data, s2, []⟩
    else
      ⟨{ rtype := "buttons", content := "Please select a package (1-3):",
         buttons := combo_package_buttons, next_step := some "get_package",
         campaign_data := some s.user_data }, s, []⟩
  else if s.current_step = "confirm_package" then
    if normalized_msg = "yes" ∨ normalized_msg = "proceed" ∨ normalized_msg = "y" then
      let package_name := dictGetD s.user_data "package_name" (Val.vStr "your plan")
      let annual := dictGetD s.user_data "annual_premium" (Val.vInt 0)
      let monthly := dictGetD s.user_data "monthly_premium" (Val.vInt 0)
      ⟨{ rtype := "buttons",
         content := "Excellent choice! Your " ++ package_name.pyStr ++ " plan:\n• Annual: " ++
           format_currency_val annual ++ "\n• Monthly: " ++ format_currency_val monthly ++
           "\n\nWould you like an agent to contact you for more details?",
         buttons := combo_agent_buttons, campaign_data := some s.user_data,
         next_step := some "follow_up_contact" },
       { s with current_step := "follow_up_contact" }, []⟩
    else if normalized_msg = "no" ∨ normalized_msg = "change" ∨ normalized_msg = "n" then
      ⟨{ rtype := "buttons", content := "No problem! Please select another package:",
         buttons := combo_package_buttons, next_step := some "get_package",
         campaign_data := some s.user_data },
       { s with current_step := "get_package" }, []⟩
    else
      let ageV := comboAgeVal s
      let tierV := comboTierVal s
      if ageV.truthy ∧ tierV.truthy then
        match combo_plan_estimate_message ageV tierV with
        | some estimate_msg =>
          ⟨{ rtype := "buttons",
             content := estimate_msg ++ "\n\nWould you like to proceed?",
             buttons := combo_confirmation_buttons, campaign_data := some s.user_data,
             next_step := some "confirm_package" }, s, []⟩
        | none => ⟨combo_apology s.user_data, s, []⟩
      else
        ⟨{ rtype := "buttons", content := "Please select a package first:",
           buttons := combo_package_buttons, next_step := some "get_package",
           campaign_data := some s.user_data },
         { s with current_step := "get_package" }, []⟩
  else if s.current_step = "follow_up_contact" then
    let tierV := optValV (dictGet s.user_data "package_tier")
    if ¬ tierV.truthy then
      ⟨{ rtype := "buttons",
         content := "Something went wrong. Would you like to start over?",
         buttons := combo_navigation_buttons, campaign_data := some s.user_data,
         next_step := some "end_conversation" },
       { s with current_step := "end_conversation" }, []⟩
    else if normalized_msg = "yes" ∨ normalized_msg = "contact" ∨ normalized_msg = "y" ∨
        normalized_msg = "contact me" then
      let ar := combo_append_sheet appendOk s tierV true
      if ar.1 then
        let d1 := dictSet s.user_data "contact_requested" (Val.vBool true)
        ⟨{ rtype := "buttons",
           content := "Thank you! One of our agents will contact you shortly via email with more details on your plan.",
           buttons := combo_navigation_buttons, campaign_data := some d1,
           next_step := some "end_conversation" },
         { s with user_data := d1, current_step := "end_conversation" }, ar.2⟩
      else
        ⟨{ rtype := "buttons",
           content := "Thank you for your interest! We\x27ll follow up soon. (Note: System issue logged.)",
           buttons := combo_navigation_buttons, campaign_data := some s.user_data,
           next_step := some "end_conversation" },
         { s with current_step := "end_conversation" }, ar.2⟩
    else if normalized_msg = "no" ∨ normalized_msg = "no thanks" ∨ normalized_msg = "n" then
      let ar := combo_append_sheet appendOk s tierV false
      ⟨{ rtype := "buttons",
         content := "No problem! If you change your mind, feel free to ask. Would you like to return to the main menu?",
         buttons := combo_navigation_buttons, campaign_data := some s.user_data,
         next_step := some "end_conversation" },
       { s with current_step := "end_conversation" }, ar.2⟩
    else
      let package_name := dictGetD s.user_data "package_name" (Val.vStr "your plan")
      ⟨{ rtype := "buttons",
         content := "Regarding your " ++ package_name.pyStr ++ " plan, would you like an agent to contact you?",
         buttons := combo_agent_buttons, campaign_data := some s.user_data,
         next_step := some "follow_up_contact" }, s, []⟩
  else if s.current_step = "end_conversation" then
    ⟨{ rtype := "buttons",
       content := "Thanks for chatting! What would you like to do next?",
       buttons := combo_navigation_buttons, campaign_data := some s.user_data,
       next_step := some "end_conversation" }, s, []⟩
  else
    ⟨combo_welcome_response, { s with current_step := "welcome" }, []⟩

/-! ## Validation-failure predicates

Each predicate mirrors, branch for branch, the dispatch of its campaign
facade and singles out exactly the inputs the step handler rejects with
a local re-prompt (unparseable value, out-of-band-high value, or an
option outside the offered set), together with the idle end steps that
re-offer their menu on any input.  Eligibility declines (age below 18),
which the source routes to a dedicated terminal branch, are not
validation failures, and neither are inputs a handler never validates
because a required collected field is missing. -/

/-- Inputs rejected by the Warisan step handlers. -/
def warisan_validation_fails (s : WState) (m : Msg) : Bool :=
  let msg_payload := warisanExtract m
  let msg_lower := pyStrip (pyLower msg_payload)
  if msg_lower = "main_menu" ∨ msg_lower = "restart" ∨ msg_lower = "start" then false
  else if s.current_step = "" ∨ s.current_step = "welcome" ∨ s.welcome_shown = false then false
  else if s.current_step = "handle_welcome_response" then
    decide (¬ (msg_lower = "yes" ∨ msg_lower = "yes_benefits" ∨
      msg_lower = "yes, tell me more" ∨ msg_lower = "no" ∨ msg_lower = "no_thanks" ∨
      msg_lower = "maybe later" ∨ msg_lower = "later"))
  else if s.current_step = "handle_benefits_response" then
    decide (¬ (msg_lower = "yes" ∨ msg_lower = "yes_coverage" ∨ msg_lower = "yes, show me" ∨
      msg_lower = "no" ∨ msg_lower = "no_thanks" ∨ msg_lower = "maybe later" ∨
      msg_lower = "later"))
  else if s.current_step = "get_legacy_amount" then
    decide (¬ (pyLower msg_payload = "other" ∨ pyLower msg_payload = "other amount" ∨
      pyLower msg_payload = "other_amount")) &&
    (match pyFloatOfDigitsDot (keepDigitDot msg_payload) with
     | none => true
     | some amount => decide (amount < 1000))
  else if s.current_step = "get_custom_legacy_amount" then
    (match pyFloatOfDigitsDot (keepDigitDot msg_payload) with
     | none => true
     | some amount => decide (amount < 1000))
  else if s.current_step = "get_age" then
    (match intOfDigitChars (keepDigit msg_payload) with
     | none => true
     | some n => decide ((70 : Int) < (n : Int)))
  else if s.current_step = "offer_agent_contact" then
    decide (¬ (msg_lower = "contact_agent" ∨ msg_lower = "no_contact" ∨
      msg_lower = "main_menu" ∨ msg_lower = "restart"))
  else if s.current_step = "main_menu" then true
  else false

/-- Inputs rejected by the Perubatan step handlers. -/
def perubatan_validation_fails (s : PState) (m : Msg) : Bool :=
  let message_text := perubatanExtract m
  let message_lower := pyLower message_text
  if message_lower = "restart" ∨ message_lower = "main_menu" then false
  else if s.current_step = "welcome" ∨ s.current_step = "" then false
  else if s.current_step = "check_interest_response" then
    decide (¬ (anySub ["yes", "y", "ya", "yeah", "sure", "ok"] message_lower ∧
        ¬ anySub ["no", "n", "not now", "later"] message_lower)) &&
    !substrIn "estimate" message_lower &&
    !anySub ["no", "n", "not now", "later"] message_lower
  else if s.current_step = "ask_estimation" then false
  else if s.current_step = "handle_estimation_response" then
    decide (¬ (anySub ["yes_estimate", "estimate", "yes", "y", "ya", "sure", "ok"] message_lower ∧
        ¬ anySub ["no", "n", "not now"] message_lower)) &&
    !anySub ["no", "n", "not now", "later"] message_lower
  else if s.current_step = "get_coverage_level" then
    (match perubatan_parse_coverage message_lower with
     | some cl => decide (¬ (cl = 1 ∨ cl = 3))
     | none => true)
  else if s.current_step = "offer_agent_contact" then
    decide (¬ (substrIn "contact_agent" message_lower ∨ substrIn "contact me" message_lower ∨
        substrIn "yes" message_lower)) &&
    decide (¬ (substrIn "no_contact" message_lower ∨
        anySub ["no thanks", "no thank you", "no"] message_lower)) &&
    decide (¬ (substrIn "other_plans" message_lower ∨ substrIn "other" message_lower)) &&
    decide (¬ (message_lower = "main_menu" ∨ message_lower = "restart"))
  else if s.current_step = "get_contact_info" then
    (pyStrip (String.mk (message_text.data.filter (fun c => ¬ c.isDigit)))).isEmpty
  else if s.current_step = "end_conversation" then true
  else false

/-- Inputs rejected by the Combo step handlers.  At get_package the
predicate additionally requires that the under-18 eligibility guard
does not fire, and at confirm_package / follow_up_contact that the
collected fields the handler consults are present, since otherwise the
handler never validates the input at all. -/
def combo_validation_fails (s : CState) (m : Msg) : Bool :=
  let message_content := comboExtract m
  let normalized_msg := pyStrip (pyLower message_content)
  if normalized_msg = "main_menu" then false
  else if dictGet s.user_data "next_step" = some (Val.vStr "get_name") then false
  else if dictGet s.user_data "next_step" = some (Val.vStr "get_dob") then false
  else if dictGet s.user_data "next_step" = some (Val.vStr "get_email") then false
  else if dictGet s.user_data "next_step" = some (Val.vStr "get_age") then
    (match pyInt message_content with
     | none => true
     | some a => decide ((60 : Int) < a))
  else if s.current_step = "welcome" ∨ normalized_msg = "start" ∨ normalized_msg = "begin" then
    false
  else if s.current_step = "after_welcome" then
    decide (¬ (normalized_msg = "learn_more" ∨ normalized_msg = "show_benefits" ∨
      normalized_msg = "benefits" ∨ normalized_msg = "yes" ∨ normalized_msg = "not_now" ∨
      normalized_msg = "no" ∨ normalized_msg = "later"))
  else if s.current_step = "show_benefits_response" then
    decide (¬ (normalized_msg = "show_estimate" ∨ normalized_msg = "not_now"))
  else if s.current_step = "get_age_manually" then
    (match pyInt normalized_msg with
     | none => true
     | some a => decide ((60 : Int) < a))
  else if s.current_step = "get_package" then
    !valIntUnder18 (comboAgeVal s) &&
    decide (¬ (pyIsDigit normalized_msg ∧
      (digitsToNat normalized_msg.data = 1 ∨ digitsToNat normalized_msg.data = 2 ∨
       digitsToNat normalized_msg.data = 3)))
  else if s.current_step = "confirm_package" then
    decide (¬ (normalized_msg = "yes" ∨ normalized_msg = "proceed" ∨ normalized_msg = "y")) &&
    decide (¬ (normalized_msg = "no" ∨ normalized_msg = "change" ∨ normalized_msg = "n")) &&
    (comboAgeVal s).truthy && (comboTierVal s).truthy
  else if s.current_step = "follow_up_contact" then
    (optValV (dictGet s.user_data "package_tier")).truthy &&
    decide (¬ (normalized_msg = "yes" ∨ normalized_msg = "contact" ∨ normalized_msg = "y" ∨
      normalized_msg = "contact me")) &&
    decide (¬ (normalized_msg = "no" ∨ normalized_msg = "no thanks" ∨ normalized_msg = "n"))
  else if s.current_step = "end_conversation" then true
  else false


/-! ## Concrete example states used by the closed theorems -/

/-- A Perubatan session sitting at the agent-contact offer. -/
def exampleOfferContactState : PState :=
  { current_step := "offer_agent_contact", age := some 40, coverage_level := some 3 }

/-- A Combo session sitting at the agent-contact follow-up with the
fields the sheet append needs. -/
def exampleFollowUpState : CState :=
  { current_step := "follow_up_contact"
  , user_data := [("name", Val.vStr "Ali"), ("email", Val.vStr "ali@x.com"),
                  ("package_tier", Val.vInt 2)]
  , age := some 30, package_tier := some 2 }

/-- A Warisan session waiting for an age. -/
def exampleGetAgeState : WState :=
  { current_step := "get_age", welcome_shown := true, user_age := some 30,
    desired_legacy := some 1000000 }

/-- A Warisan session at the amount step whose collected map already
holds a parsed age. -/
def exampleLegacyState : WState :=
  { current_step := "get_legacy_amount", welcome_shown := true
  , user_age := some 30, user_data := [("age", Val.vInt 30)] }

/-- The band name the combo calculator selects for an in-policy age. -/
def comboBandName (a : Int) : String :=
  if a ≤ 25 then "18-25" else if a ≤ 35 then "26-35"
  else if a ≤ 44 then "36-44" else "45-54"

/-! ## Claim C1: the facade failure boundary -/

/-- C1 counterexample: when an unexpected fault is caught at the Warisan
facade boundary, the generic apology is returned but the session is NOT
reset to the initial step — a session sitting at get_age is still at
get_age afterwards, while the claim requires it to be back at welcome. -/
theorem C1_counterexample :
    (tabung_warisan_process true true exampleGetAgeState (Msg.txt "30") none).resp
      = warisan_apology ∧
    (tabung_warisan_process true true exampleGetAgeState (Msg.txt "30") none).state.current_step
      = "get_age" ∧
    "get_age" ≠ "welcome" :=
  ⟨rfl, rfl, by decide⟩

/-- C1 amended: process_message never propagates a fault — the facade
returns the campaign's generic apology response — but the session is
left exactly as it was at the fault point (for Combo, as it was after
the pre-try merge), not reset to the initial step; only the response's
next_step field names the welcome step. -/
theorem C1_amended :
    (∀ (appendOk : Bool) (s : WState) (m : Msg) (ud : Option Dict),
      tabung_warisan_process true appendOk s m ud = ⟨warisan_apology, s, []⟩) ∧
    (∀ (appendOk : Bool) (s : PState) (m : Msg) (ud : Option Dict),
      tabung_perubatan_process true appendOk s m ud = ⟨perubatan_apology, s, []⟩) ∧
    (∀ (appendOk : Bool) (today : Date) (s : CState) (m : Msg) (ud : Option Dict),
      pyStrip (pyLower (comboExtract m)) ≠ "main_menu" →
      perlindungan_combo_process true appendOk today s m ud =
        ⟨combo_apology (comboMerge s ud).user_data, comboMerge s ud, []⟩) := by
  refine ⟨fun _ _ _ _ => rfl, fun _ _ _ _ => rfl, fun ok td s m ud h => ?_⟩
  unfold perlindungan_combo_process
  simp [h]

/-- C1 witness: the amended combo conjunct applied at a concrete
non-command message and a fresh session. -/
theorem C1_witness :
    pyStrip (pyLower (comboExtract (Msg.txt "hello"))) ≠ "main_menu" ∧
    perlindungan_combo_process true true (2026, 10, 12) cInitial (Msg.txt "hello") none =
      ⟨combo_apology [], cInitial, []⟩ :=
  ⟨by decide, C1_amended.2.2 true (2026, 10, 12) cInitial (Msg.txt "hello") none (by decide)⟩

/-! ## Claim C2: the main_menu global command -/

/-- C2: in every campaign, from every session state (reachable or not)
and under any externally supplied context, sending main_menu returns a
reset_to_main response and puts the session back into the fresh initial
state, whose current_step is the welcome step. -/
theorem C2_main_menu_resets :
    (∀ (appendOk : Bool) (s : WState) (ud : Option Dict),
      (tabung_warisan_process false appendOk s (Msg.txt "main_menu") ud).resp.rtype
          = "reset_to_main" ∧
      (tabung_warisan_process false appendOk s (Msg.txt "main_menu") ud).state = wInitial ∧
      (tabung_warisan_process false appendOk s (Msg.txt "main_menu") ud).state.current_step
          = "welcome") ∧
    (∀ (appendOk : Bool) (s : PState) (ud : Option Dict),
      (tabung_perubatan_process false appendOk s (Msg.txt "main_menu") ud).resp.rtype
          = "reset_to_main" ∧
      (tabung_perubatan_process false appendOk s (Msg.txt "main_menu") ud).state = pInitial ∧
      (tabung_perubatan_process false appendOk s (Msg.txt "main_menu") ud).state.current_step
          = "welcome") ∧
    (∀ (appendOk : Bool) (today : Date) (s : CState) (ud : Option Dict),
      (perlindungan_combo_process false appendOk today s (Msg.txt "main_menu") ud).resp.rtype
          = "reset_to_main" ∧
      (perlindungan_combo_process false appendOk today s (Msg.txt "main_menu") ud).state
          = cInitial ∧
      (perlindungan_combo_process false appendOk today s (Msg.txt "main_menu") ud).state.current_step
          = "welcome") :=
  ⟨fun _ _ _ => ⟨rfl, rfl, rfl⟩, fun _ _ _ => ⟨rfl, rfl, rfl⟩,
   fun _ _ _ _ => ⟨rfl, rfl, rfl⟩⟩

/-! ## Claim C4: lead-append failure at terminal contact transitions -/

/-- C4 counterexample: in the Combo contact-requested branch the
response depends on the append outcome — with the sink healthy the user
is told an agent will contact them, with the sink failing they get the
System-issue acknowledgement — contradicting the claim that the
response is identical whether the lead append succeeds or fails. -/
theorem C4_counterexample :
    (perlindungan_combo_process false true (2026, 10, 12) exampleFollowUpState
        (Msg.txt "yes") none).resp ≠
    (perlindungan_combo_process false false (2026, 10, 12) exampleFollowUpState
        (Msg.txt "yes") none).resp := by decide

/-- C4 amended: the append failure is caught at the point of the call
and never propagates in any campaign; in Warisan and Perubatan the
whole result is independent of the append outcome, while in the Combo
contact-requested branch the attempted append and the transition to
end_conversation are the same either way but the acknowledgement text
(and the recorded contact_requested flag) differ with the outcome. -/
theorem C4_amended :
    (∀ (fault : Bool) (s : WState) (m : Msg) (ud : Option Dict),
      tabung_warisan_process fault true s m ud = tabung_warisan_process fault false s m ud) ∧
    (∀ (fault : Bool) (s : PState) (m : Msg) (ud : Option Dict),
      tabung_perubatan_process fault true s m ud = tabung_perubatan_process fault false s m ud) ∧
    (∀ (appendOk : Bool),
      (perlindungan_combo_process false appendOk (2026, 10, 12) exampleFollowUpState
          (Msg.txt "yes") none).state.current_step = "end_conversation" ∧
      (perlindungan_combo_process false appendOk (2026, 10, 12) exampleFollowUpState
          (Msg.txt "yes") none).resp.next_step = some "end_conversation" ∧
      (perlindungan_combo_process false appendOk (2026, 10, 12) exampleFollowUpState
          (Msg.txt "yes") none).rows ≠ []) :=
  ⟨fun _ _ _ _ => rfl, fun _ _ _ _ => rfl,
   fun ok => by cases ok <;> exact ⟨rfl, rfl, by decide⟩⟩

/-! ## Claim C5: inbound message normalization -/

/-- C5 counterexample: the Perubatan normalizer reads only the text
field of a structured payload, so a payload carrying both fields is
normalized to its text — not to its value as the claim (and the spec
normalizer) requires. -/
theorem C5_counterexample :
    perubatanExtract (Msg.payload (some "value_text") (some "text_text")) = "text_text" ∧
    specNormalizePayload (some "value_text") (some "text_text") = "value_text" ∧
    "text_text" ≠ "value_text" := by decide

/-- C5 amended: Warisan normalizes structured payloads exactly as the
spec describes (value, then text, then the stringified payload, with
empty strings treated as missing); Combo agrees whenever value or text
is truthy but falls back to the empty string instead of the stringified
payload; Perubatan uses only the text field, stripped. -/
theorem C5_amended :
    (∀ (v t : Option String),
      warisanExtract (Msg.payload v t) = specNormalizePayload v t) ∧
    (∀ (v t : Option String), orFalsy v (orFalsy t "") ≠ "" →
      comboExtract (Msg.payload v t) = specNormalizePayload v t) ∧
    (∀ (v t : Option String),
      perubatanExtract (Msg.payload v t) = pyStrip (orFalsy t "")) := by
  refine ⟨fun v t => rfl, fun v t h => ?_, fun v t => rfl⟩
  rcases v with _ | sv <;> rcases t with _ | st <;>
    simp_all [comboExtract, specNormalizePayload, orFalsy] <;>
    split_ifs <;> simp_all

/-- C5 witness: the amended combo conjunct applied at a payload with a
truthy value field. -/
theorem C5_witness :
    orFalsy (some "x") (orFalsy none "") ≠ "" ∧
    comboExtract (Msg.payload (some "x") none) = specNormalizePayload (some "x") none :=
  ⟨by decide, C5_amended.2.1 (some "x") none (by decide)⟩

/-! ## Claim C9: context merge -/

/-- C9 counterexample: an unparseable external age leaves the typed
session age untouched but, contrary to the claim, the collected map's
age entry is overwritten by the unconditional dict update — the stored
parsed age 30 is replaced by the unparseable string. -/
theorem C9_counterexample :
    (tabung_warisan_process false true exampleLegacyState (Msg.txt "zz")
        (some [("age", Val.vStr "abc")])).state.user_age = some 30 ∧
    dictGet (tabung_warisan_process false true exampleLegacyState (Msg.txt "zz")
        (some [("age", Val.vStr "abc")])).state.user_data "age" = some (Val.vStr "abc") ∧
    Val.vStr "abc" ≠ Val.vInt 30 := by decide

/-- C9 amended: in the Warisan and Perubatan facades the typed session
age is overwritten only by an external age that is present, truthy and
parseable — otherwise it is kept — while the collected map is always
the plain dict update of the session map with every supplied entry,
unknown and unparseable keys included. -/
theorem C9_amended :
    (∀ (s : WState) (ud : Dict),
      (warisanMerge s (some ud)).user_data = dictUpdate s.user_data ud) ∧
    (∀ (s : WState) (ud : Dict) (v : Val), dictGet ud "age" = some v →
      v.toPyInt = none → (warisanMerge s (some ud)).user_age = s.user_age) ∧
    (∀ (s : WState) (ud : Dict) (v : Val), dictGet ud "age" = some v →
      v.truthy = false → (warisanMerge s (some ud)).user_age = s.user_age) ∧
    (∀ (s : WState) (ud : Dict), dictGet ud "age" = none →
      (warisanMerge s (some ud)).user_age = s.user_age) ∧
    (∀ (s : PState) (ud : Dict),
      (perubatanMerge s (some ud)).user_data = dictUpdate s.user_data ud) ∧
    (∀ (s : PState) (ud : Dict) (v : Val), dictGet ud "age" = some v →
      v.toPyInt = none → (perubatanMerge s (some ud)).age = s.age) ∧
    (∀ (s : PState) (ud : Dict) (v : Val), dictGet ud "age" = some v →
      v.truthy = false → (perubatanMerge s (some ud)).age = s.age) ∧
    (∀ (s : PState) (ud : Dict), dictGet ud "age" = none →
      (perubatanMerge s (some ud)).age = s.age) := by
  refine ⟨fun s ud => ?_, fun s ud v hg hp => ?_, fun s ud v hg ht => ?_, fun s ud hg => ?_,
          fun s ud => ?_, fun s ud v hg hp => ?_, fun s ud v hg ht => ?_, fun s ud hg => ?_⟩
  all_goals simp only [warisanMerge, perubatanMerge]
  all_goals split_ifs with hud
  all_goals try simp [List.isEmpty_iff.mp hud, dictUpdate]
  all_goals rcases h1 : dictGet ud "age" with _ | v1 <;>
    simp_all <;>
    rcases h2 : dictGet ud "name" with _ | v2 <;>
    simp_all <;>
    split_ifs <;>
    (try rcases h3 : v1.toPyInt with _ | n) <;>
    simp_all

/-- C9 witness: the amended unparseable-age conjunct applied at a
concrete session and an unparseable external age. -/
theorem C9_witness :
    dictGet [("age", Val.vStr "abc")] "age" = some (Val.vStr "abc") ∧
    (Val.vStr "abc").toPyInt = none ∧
    (warisanMerge exampleLegacyState (some [("age", Val.vStr "abc")])).user_age =
      exampleLegacyState.user_age :=
  ⟨by decide, by decide,
   C9_amended.2.1 exampleLegacyState [("age", Val.vStr "abc")] (Val.vStr "abc")
     (by decide) (by decide)⟩

/-! ## Claim C10: substring matching at the medical contact offer -/

/-- C10: at the Perubatan offer_agent_contact step, agreement is
detected by substring containment, so the input eyes — which is neither
offered button value — triggers the contact-requested terminal
transition: a lead row append is attempted and the session moves to
contact_confirmed. -/
theorem C10_substring_contact :
    (tabung_perubatan_process false true exampleOfferContactState
        (Msg.txt "eyes") none).state.current_step = "contact_confirmed" ∧
    (tabung_perubatan_process false true exampleOfferContactState
        (Msg.txt "eyes") none).rows ≠ [] ∧
    (tabung_perubatan_process false true exampleOfferContactState
        (Msg.txt "eyes") none).resp.next_step = some "contact_confirmed" ∧
    substrIn "yes" (pyLower (perubatanExtract (Msg.txt "eyes"))) = true ∧
    "eyes" ≠ "contact_agent" ∧ "eyes" ≠ "no_contact" := by decide

/-! ## Claim C3: calculators and out-of-band ages -/

/-- C3 counterexample: the Warisan premium calculator has no
eligibility check at all — at the out-of-band age 17 it returns the
numeric premium 4800.00 for a one-million legacy (the under-35 factor
4.8 per thousand), not a decline outcome; its return type carries no
error channel. -/
theorem C3_counterexample :
    calculate_warisan_premium_estimation 1000000 17 = 4800 := by
  unfold calculate_warisan_premium_estimation
  norm_num

/-- C3 amended: the Perubatan calculator rejects every out-of-band age
with a nonempty error message whatever the coverage level, and the
Combo calculator rejects every out-of-band age for every valid tier
with an explicit error; the Warisan calculator itself stays numeric,
and out-of-band ages are rejected upstream by its get_age step handler
(under 18 routed to the decline, over 70 re-prompted) before any
estimate is produced. -/
theorem C3_amended :
    (∀ (a : Int) (c : Int), a < 18 ∨ 64 < a →
      (estimate_medical_premium (some a) c).2 ≠ "") ∧
    (∀ (a : Int) (t : Int), (t = 1 ∨ t = 2 ∨ t = 3) → a < 18 ∨ 54 < a →
      ((calculate_combo_tier (a : ℚ) t).2.2).isSome = true) ∧
    (∀ (s : WState) (msgtext : String) (n : Nat),
      intOfDigitChars (keepDigit msgtext) = some n → (n : Int) < 18 →
      (warisan_handle_age s msgtext).1 = warisan_under18_response ∧
      (warisan_handle_age s msgtext).2.current_step = "main_menu") ∧
    (∀ (s : WState) (msgtext : String) (n : Nat),
      intOfDigitChars (keepDigit msgtext) = some n → (70 : Int) < (n : Int) →
      (warisan_handle_age s msgtext).1 = warisan_invalid_age_response ∧
      (warisan_handle_age s msgtext).2 = s) := by
  refine ⟨fun a c h => ?_, fun a t ht h => ?_, fun s msgtext n hp h18 => ?_,
          fun s msgtext n hp h70 => ?_⟩
  · simp only [estimate_medical_premium]
    split_ifs <;> first | decide | omega
  · have hq : ((a : ℚ) < 18 ∨ 54 < (a : ℚ)) := by
      rcases h with h | h
      · exact Or.inl (by exact_mod_cast h)
      · exact Or.inr (by exact_mod_cast h)
    simp only [calculate_combo_tier]
    rw [if_neg (not_not_intro ht)]
    have h1 : ¬ ((18 : ℚ) ≤ (a : ℚ) ∧ (a : ℚ) ≤ 25) := by
      rintro ⟨hl, hr⟩; rcases hq with h | h <;> linarith
    have h2 : ¬ ((26 : ℚ) ≤ (a : ℚ) ∧ (a : ℚ) ≤ 35) := by
      rintro ⟨hl, hr⟩; rcases hq with h | h <;> linarith
    have h3 : ¬ ((36 : ℚ) ≤ (a : ℚ) ∧ (a : ℚ) ≤ 44) := by
      rintro ⟨hl, hr⟩; rcases hq with h | h <;> linarith
    have h4 : ¬ ((45 : ℚ) ≤ (a : ℚ) ∧ (a : ℚ) ≤ 54) := by
      rintro ⟨hl, hr⟩; rcases hq with h | h <;> linarith
    simp [h1, h2, h3, h4]
  · constructor <;>
      · simp only [warisan_handle_age, hp]
        rw [if_pos h18]
  · have hn18 : ¬ ((n : Int) < 18) := by omega
    constructor <;>
      · simp only [warisan_handle_age, hp]
        rw [if_neg hn18, if_pos h70]

/-- C3 witness: the amended conjuncts applied at age 17 (medical and
combo calculators) and at the concrete inputs 17 and 99 of the Warisan
age handler. -/
theorem C3_witness :
    (estimate_medical_premium (some 17) 1).2 ≠ "" ∧
    ((calculate_combo_tier ((17 : Int) : ℚ) 1).2.2).isSome = true ∧
    (warisan_handle_age wInitial "17").1 = warisan_under18_response ∧
    (warisan_handle_age wInitial "99").1 = warisan_invalid_age_response :=
  ⟨C3_amended.1 17 1 (Or.inl (by decide)),
   C3_amended.2.1 17 1 (Or.inl (by decide)) (Or.inl (by decide)),
   (C3_amended.2.2.1 wInitial "17" 17 (by decide) (by decide)).1,
   (C3_amended.2.2.2 wInitial "99" 99 (by decide) (by decide)).1⟩

/-! ## Claim C8: the medical example scenario -/

/-- C8 counterexample: at age 40 with Comprehensive coverage the code
computes round(2015.10 / 12, 2) with round-half-to-even, giving 167.92,
not the 167.93 the claim states. -/
theorem C8_counterexample :
    (estimate_medical_premium (some 40) 3).1 = 16792/100 ∧
    ((16792 : ℚ)/100) ≠ 16793/100 := by
  have hround : pyRound2 ((20151 : ℚ) / 10 / 12) = 16792/100 := by
    unfold pyRound2 roundHalfEvenInt
    have hfl : ⌊(20151 : ℚ) / 10 / 12 * 100⌋ = 16792 := by
      rw [Int.floor_eq_iff]
      constructor <;> norm_num
    rw [hfl]
    norm_num
  constructor
  · have h1 : (estimate_medical_premium (some 40) 3).1 = pyRound2 ((20151 : ℚ) / 10 / 12) := by
      simp [estimate_medical_premium, perubatan_base_monthly, age_annual_premiums]
    rw [h1, hround]
  · norm_num

/-- C8 amended: the monthly premium at age 40 with Comprehensive
coverage is the annual table entry 2015.10 divided by 12 and rounded to
two decimals by the code's round-half-to-even, which yields 167.92
(rather than 167.93). -/
theorem C8_amended :
    (estimate_medical_premium (some 40) 3).1 = pyRound2 ((20151 : ℚ) / 10 / 12) ∧
    pyRound2 ((20151 : ℚ) / 10 / 12) = 16792/100 := by
  constructor
  · simp [estimate_medical_premium, perubatan_base_monthly, age_annual_premiums]
  · unfold pyRound2 roundHalfEvenInt
    have hfl : ⌊(20151 : ℚ) / 10 / 12 * 100⌋ = 16792 := by
      rw [Int.floor_eq_iff]
      constructor <;> norm_num
    rw [hfl]
    norm_num

/-! ## Claim C7: premium monotonicity -/

/-- Round-half-to-even never drops below the floor. -/
theorem floor_le_roundHalfEvenInt (x : ℚ) : ⌊x⌋ ≤ roundHalfEvenInt x := by
  simp only [roundHalfEvenInt]
  split_ifs <;> omega

/-- Round-half-to-even never exceeds the floor plus one. -/
theorem roundHalfEvenInt_le_floor_add_one (x : ℚ) : roundHalfEvenInt x ≤ ⌊x⌋ + 1 := by
  simp only [roundHalfEvenInt]
  split_ifs <;> omega

/-- Round-half-to-even is monotone. -/
theorem roundHalfEvenInt_mono {x y : ℚ} (h : x ≤ y) :
    roundHalfEvenInt x ≤ roundHalfEvenInt y := by
  have hf : ⌊x⌋ ≤ ⌊y⌋ := Int.floor_mono h
  rcases lt_or_eq_of_le hf with hlt | heq
  · calc roundHalfEvenInt x ≤ ⌊x⌋ + 1 := roundHalfEvenInt_le_floor_add_one x
      _ ≤ ⌊y⌋ := by omega
      _ ≤ roundHalfEvenInt y := floor_le_roundHalfEvenInt y
  · have hfx : (⌊x⌋ : ℚ) ≤ x := Int.floor_le x
    have hfy : (⌊y⌋ : ℚ) ≤ y := Int.floor_le y
    simp only [roundHalfEvenInt]
    rw [← heq]
    split_ifs <;> first | omega | linarith

/-- Rounding to two decimals is monotone. -/
theorem pyRound2_mono {x y : ℚ} (h : x ≤ y) : pyRound2 x ≤ pyRound2 y := by
  unfold pyRound2
  have h1 : roundHalfEvenInt (x * 100) ≤ roundHalfEvenInt (y * 100) :=
    roundHalfEvenInt_mono (by linarith)
  have h2 : ((roundHalfEvenInt (x * 100) : ℚ)) ≤ (roundHalfEvenInt (y * 100) : ℚ) := by
    exact_mod_cast h1
  linarith

/-- Chaining adjacent comparisons of an integer-indexed function. -/
theorem int_chain_mono (f : Int → ℚ) (lo hi : Int)
    (hadj : ∀ i, lo ≤ i → i < hi → f i ≤ f (i + 1)) :
    ∀ (k : Nat) (a : Int), lo ≤ a → a + k ≤ hi → f a ≤ f (a + k) := by
  intro k
  induction k with
  | zero => intro a _ _; simp
  | succ n ih =>
    intro a ha hk
    have hcast : a + ((n : Int) + 1) = (a + n) + 1 := by ring
    have hk2 : a + (n : Int) ≤ hi := by push_cast at hk; omega
    have h1 : f a ≤ f (a + n) := ih a ha (by omega)
    have h2 : f (a + n) ≤ f ((a + n) + 1) := by
      refine hadj (a + n) (by omega) ?_
      push_cast at hk; omega
    calc f a ≤ f (a + n) := h1
      _ = f (a + n) := rfl
      _ ≤ f ((a + n) + 1) := h2
      _ = f (a + ((n : Nat) : Int) + 1) := rfl
      _ = f (a + (((n + 1) : Nat) : Int)) := by push_cast; ring_nf

/-- The Perubatan base monthly contribution never decreases from one
age to the next within the policy band. -/
theorem perubatan_base_monthly_adjacent :
    ∀ i : Int, 18 ≤ i → i < 64 → perubatan_base_monthly i ≤ perubatan_base_monthly (i + 1) := by
  intro i h1 h2
  interval_cases i <;> norm_num [perubatan_base_monthly, age_annual_premiums]

/-- The Perubatan base monthly contribution is monotone on [18, 64]. -/
theorem perubatan_base_monthly_mono {a b : Int} (ha : 18 ≤ a) (hab : a ≤ b) (hb : b ≤ 64) :
    perubatan_base_monthly a ≤ perubatan_base_monthly b := by
  have h := int_chain_mono perubatan_base_monthly 18 64 perubatan_base_monthly_adjacent
    (b - a).toNat a ha (by omega)
  have : a + ((b - a).toNat : Int) = b := by omega
  rwa [this] at h

/-- Evaluation of the medical estimator at in-policy ages. -/
theorem estimate_medical_premium_eval {a : Int} (h1 : 18 ≤ a) (h2 : a ≤ 64) :
    (estimate_medical_premium (some a) 1).1 = pyRound2 (perubatan_base_monthly a - 20) ∧
    (estimate_medical_premium (some a) 3).1 = pyRound2 (perubatan_base_monthly a) := by
  have hn1 : ¬ (a < 18) := by omega
  have hn2 : ¬ (a > 64) := by omega
  simp [estimate_medical_premium, hn1, hn2]

/-- Evaluation of the combo calculator at in-policy ages and valid
tiers: the annual premium is the band table entry, the monthly premium
its rounded twelfth, and there is no error. -/
theorem calculate_combo_tier_eval {a : Int} {t : Int} (h1 : 18 ≤ a) (h2 : a ≤ 54)
    (ht : t = 1 ∨ t = 2 ∨ t = 3) :
    calculate_combo_tier (a : ℚ) t =
      (some (combo_band_premium t (comboBandName a)),
       some (pyRound2 (combo_band_premium t (comboBandName a) / 12)), none) := by
  have e1 : ((18 : ℚ) ≤ (a : ℚ) ∧ (a : ℚ) ≤ 25) ↔ (18 ≤ a ∧ a ≤ 25) := by
    constructor <;> rintro ⟨u, v⟩ <;> exact ⟨by exact_mod_cast u, by exact_mod_cast v⟩
  have e2 : ((26 : ℚ) ≤ (a : ℚ) ∧ (a : ℚ) ≤ 35) ↔ (26 ≤ a ∧ a ≤ 35) := by
    constructor <;> rintro ⟨u, v⟩ <;> exact ⟨by exact_mod_cast u, by exact_mod_cast v⟩
  have e3 : ((36 : ℚ) ≤ (a : ℚ) ∧ (a : ℚ) ≤ 44) ↔ (36 ≤ a ∧ a ≤ 44) := by
    constructor <;> rintro ⟨u, v⟩ <;> exact ⟨by exact_mod_cast u, by exact_mod_cast v⟩
  have e4 : ((45 : ℚ) ≤ (a : ℚ) ∧ (a : ℚ) ≤ 54) ↔ (45 ≤ a ∧ a ≤ 54) := by
    constructor <;> rintro ⟨u, v⟩ <;> exact ⟨by exact_mod_cast u, by exact_mod_cast v⟩
  unfold calculate_combo_tier comboBandName
  rw [if_neg (not_not_intro ht)]
  simp only [e1, e2, e3, e4]
  split_ifs <;> first | rfl | omega

/-- The combo band table entry never decreases with the age band, nor
with the tier. -/
theorem combo_band_premium_mono :
    (∀ (t : Int), t = 1 ∨ t = 2 ∨ t = 3 → ∀ (a b : Int), a ≤ b →
      combo_band_premium t (comboBandName a) ≤ combo_band_premium t (comboBandName b)) ∧
    (∀ (t u : Int), t = 1 ∨ t = 2 ∨ t = 3 → u = 1 ∨ u = 2 ∨ u = 3 → t ≤ u → ∀ (a : Int),
      combo_band_premium t (comboBandName a) ≤ combo_band_premium u (comboBandName a)) := by
  constructor
  · rintro t (rfl | rfl | rfl) a b hab <;>
      · unfold comboBandName
        split_ifs <;> first | omega | (simp [combo_band_premium]; try norm_num)
  · rintro t u (rfl | rfl | rfl) (rfl | rfl | rfl) htu a <;>
      first
      | omega
      | · unfold comboBandName
          split_ifs <;> (simp [combo_band_premium]; try norm_num)

/-- C7: premium monotonicity.  For the medical calculator the computed
(rounded monthly) premium never decreases with age inside 18-64 for a
fixed coverage level, and Comprehensive is never cheaper than Basic at
a fixed in-policy age.  For the combo calculator both annual and
monthly premiums never decrease with age inside 18-54 for a fixed
tier, and a higher tier is never cheaper at a fixed in-policy age.
For the Warisan calculator a fixed nonnegative legacy amount never gets
cheaper with age, and a larger amount is never cheaper at a fixed age
(amounts quantified in whole currency units). -/
theorem C7_premium_monotonicity :
    (∀ (c : Int), c = 1 ∨ c = 3 → ∀ (a b : Int), 18 ≤ a → a ≤ b → b ≤ 64 →
      (estimate_medical_premium (some a) c).1 ≤ (estimate_medical_premium (some b) c).1) ∧
    (∀ (a : Int), 18 ≤ a → a ≤ 64 →
      (estimate_medical_premium (some a) 1).1 ≤ (estimate_medical_premium (some a) 3).1) ∧
    (∀ (t : Int), t = 1 ∨ t = 2 ∨ t = 3 → ∀ (a b : Int), 18 ≤ a → a ≤ b → b ≤ 54 →
      ((calculate_combo_tier (a : ℚ) t).1.getD 0 ≤ (calculate_combo_tier (b : ℚ) t).1.getD 0 ∧
       (calculate_combo_tier (a : ℚ) t).2.1.getD 0 ≤ (calculate_combo_tier (b : ℚ) t).2.1.getD 0)) ∧
    (∀ (t u : Int), t = 1 ∨ t = 2 ∨ t = 3 → u = 1 ∨ u = 2 ∨ u = 3 → t ≤ u →
      ∀ (a : Int), 18 ≤ a → a ≤ 54 →
      (calculate_combo_tier (a : ℚ) t).1.getD 0 ≤ (calculate_combo_tier (a : ℚ) u).1.getD 0) ∧
    (∀ (amtC : Nat) (a b : Int), a ≤ b →
      calculate_warisan_premium_estimation (amtC : ℚ) a ≤
        calculate_warisan_premium_estimation (amtC : ℚ) b) ∧
    (∀ (amt1C amt2C : Nat) (a : Int), amt1C ≤ amt2C →
      calculate_warisan_premium_estimation (amt1C : ℚ) a ≤
        calculate_warisan_premium_estimation (amt2C : ℚ) a) := by
  refine ⟨?_, ?_, ?_, ?_, ?_, ?_⟩
  · rintro c hc a b ha hab hb
    have hbase := perubatan_base_monthly_mono ha hab hb
    rcases hc with rfl | rfl
    · rw [(estimate_medical_premium_eval ha (by omega)).1,
        (estimate_medical_premium_eval (by omega) hb).1]
      exact pyRound2_mono (by linarith)
    · rw [(estimate_medical_premium_eval ha (by omega)).2,
        (estimate_medical_premium_eval (by omega) hb).2]
      exact pyRound2_mono (by linarith)
  · intro a ha hb
    rw [(estimate_medical_premium_eval ha hb).1, (estimate_medical_premium_eval ha hb).2]
    exact pyRound2_mono (by linarith)
  · rintro t ht a b ha hab hb
    rw [calculate_combo_tier_eval ha (by omega) ht, calculate_combo_tier_eval (by omega) hb ht]
    have hband := combo_band_premium_mono.1 t ht a b hab
    exact ⟨by simpa using hband, by simpa using pyRound2_mono (by linarith)⟩
  · rintro t u ht hu htu a ha hb
    rw [calculate_combo_tier_eval ha hb ht, calculate_combo_tier_eval ha hb hu]
    simpa using combo_band_premium_mono.2 t u ht hu htu a
  · intro amtC a b hab
    unfold calculate_warisan_premium_estimation
    have hamt : (0 : ℚ) ≤ (amtC : ℚ) / 1000 := by positivity
    split_ifs <;> first | omega | exact mul_le_mul_of_nonneg_left (by norm_num) hamt
  · intro amt1C amt2C a h
    unfold calculate_warisan_premium_estimation
    have hdiv : ((amt1C : ℚ)) / 1000 ≤ ((amt2C : ℚ)) / 1000 := by
      have : ((amt1C : ℚ)) ≤ ((amt2C : ℚ)) := by exact_mod_cast h
      linarith
    split_ifs <;> exact mul_le_mul_of_nonneg_right hdiv (by norm_num)

/-- C7 witness: the monotonicity conjuncts applied at concrete ages,
tiers and amounts. -/
theorem C7_witness :
    (estimate_medical_premium (some 40) 3).1 ≤ (estimate_medical_premium (some 41) 3).1 ∧
    (estimate_medical_premium (some 40) 1).1 ≤ (estimate_medical_premium (some 40) 3).1 ∧
    (calculate_combo_tier ((30 : Int) : ℚ) 2).1.getD 0 ≤
      (calculate_combo_tier ((40 : Int) : ℚ) 2).1.getD 0 ∧
    (calculate_combo_tier ((30 : Int) : ℚ) 1).1.getD 0 ≤
      (calculate_combo_tier ((30 : Int) : ℚ) 3).1.getD 0 ∧
    calculate_warisan_premium_estimation ((1000000 : Nat) : ℚ) 30 ≤
      calculate_warisan_premium_estimation ((1000000 : Nat) : ℚ) 50 ∧
    calculate_warisan_premium_estimation ((500000 : Nat) : ℚ) 40 ≤
      calculate_warisan_premium_estimation ((1000000 : Nat) : ℚ) 40 :=
  ⟨C7_premium_monotonicity.1 3 (Or.inr rfl) 40 41 (by decide) (by decide) (by decide),
   C7_premium_monotonicity.2.1 40 (by decide) (by decide),
   (C7_premium_monotonicity.2.2.1 2 (Or.inr (Or.inl rfl)) 30 40 (by decide) (by decide)
     (by decide)).1,
   C7_premium_monotonicity.2.2.2.1 1 3 (Or.inl rfl) (Or.inr (Or.inr rfl)) (by decide) 30
     (by decide) (by decide),
   C7_premium_monotonicity.2.2.2.2.1 1000000 30 50 (by decide),
   C7_premium_monotonicity.2.2.2.2.2 500000 1000000 40 (by decide)⟩


/-! ## Claim C6: validation failures never advance the session -/


theorem warisan_handle_legacy_amount_invalid (s : WState) (p : String)
    (hO : ¬ (pyLower p = "other" ∨ pyLower p = "other amount" ∨ pyLower p = "other_amount"))
    (hm : (match pyFloatOfDigitsDot (keepDigitDot p) with
           | none => true
           | some amount => decide (amount < 1000)) = true) :
    (warisan_handle_legacy_amount s p).2 = s := by
  unfold warisan_handle_legacy_amount
  rw [if_neg hO]
  rcases hp : pyFloatOfDigitsDot (keepDigitDot p) with _ | amt <;>
    simp only [hp] at hm ⊢
  all_goals first
    | rfl
    | (rw [decide_eq_true_eq] at hm; rw [if_pos hm])

theorem warisan_handle_age_invalid (s : WState) (p : String)
    (hm : (match intOfDigitChars (keepDigit p) with
           | none => true
           | some n => decide ((70 : Int) < (n : Int))) = true) :
    (warisan_handle_age s p).2 = s := by
  unfold warisan_handle_age
  rcases hp : intOfDigitChars (keepDigit p) with _ | n <;>
    simp only [hp] at hm ⊢
  all_goals first
    | rfl
    | (rw [decide_eq_true_eq] at hm
       rw [if_neg (by omega : ¬ ((n : Int) < 18)), if_pos (by omega : (n : Int) > 70)])

theorem warisan_handle_agent_contact_invalid (ok : Bool) (s : WState) (m : Msg)
    (hO : ¬ (pyStrip (pyLower (warisanExtract m)) = "contact_agent" ∨
             pyStrip (pyLower (warisanExtract m)) = "no_contact" ∨
             pyStrip (pyLower (warisanExtract m)) = "main_menu" ∨
             pyStrip (pyLower (warisanExtract m)) = "restart")) :
    (warisan_handle_agent_contact ok s m).2.1 = s := by
  unfold warisan_handle_agent_contact
  push_neg at hO
  rw [if_neg hO.1, if_neg hO.2.1, if_neg (not_or.mpr ⟨hO.2.2.1, hO.2.2.2⟩)]

set_option maxHeartbeats 1000000 in
theorem warisan_validation_state_preserved (ok : Bool) (s : WState) (m : Msg)
    (h : warisan_validation_fails s m = true) :
    (tabung_warisan_process false ok s m none).state = s := by
  simp only [warisan_validation_fails] at h
  split_ifs at h with hg hw hs1 hs2 hs3 hs4 hs5 hs6 hs7
  · -- handle_welcome_response
    rw [decide_eq_true_eq] at h
    simp only [tabung_warisan_process, warisanMerge, reduceIte]
    rw [if_neg hg, if_neg hw, if_pos hs1]
    split_ifs <;> first | rfl | exact absurd (by tauto) h
  · -- handle_benefits_response
    rw [decide_eq_true_eq] at h
    simp only [tabung_warisan_process, warisanMerge, reduceIte]
    rw [if_neg hg, if_neg hw, if_neg hs1, if_pos hs2]
    split_ifs <;> first | rfl | exact absurd (by tauto) h
  · -- get_legacy_amount
    rw [Bool.and_eq_true, decide_eq_true_eq] at h
    obtain ⟨hO, hm⟩ := h
    simp only [tabung_warisan_process, warisanMerge, reduceIte]
    rw [if_neg hg, if_neg hw, if_neg hs1, if_neg hs2, if_pos hs3]
    exact warisan_handle_legacy_amount_invalid _ _ hO hm
  · -- get_custom_legacy_amount
    simp only [tabung_warisan_process, warisanMerge, reduceIte]
    rw [if_neg hg, if_neg hw, if_neg hs1, if_neg hs2, if_neg hs3, if_pos hs4]
    rcases hp : pyFloatOfDigitsDot (keepDigitDot (warisanExtract m)) with _ | amt <;>
      simp only [hp] at h ⊢
    all_goals first
      | rfl
      | (rw [decide_eq_true_eq] at h; rw [if_pos h]; try rfl)
  · -- get_age
    simp only [tabung_warisan_process, warisanMerge, reduceIte]
    rw [if_neg hg, if_neg hw, if_neg hs1, if_neg hs2, if_neg hs3, if_neg hs4, if_pos hs5]
    exact warisan_handle_age_invalid _ _ h
  · -- offer_agent_contact
    rw [decide_eq_true_eq] at h
    simp only [tabung_warisan_process, warisanMerge, reduceIte]
    rw [if_neg hg, if_neg hw, if_neg hs1, if_neg hs2, if_neg hs3, if_neg hs4, if_neg hs5,
      if_pos hs6]
    exact warisan_handle_agent_contact_invalid _ _ _ h
  · -- main_menu
    simp only [tabung_warisan_process, warisanMerge, reduceIte]
    rw [if_neg hg, if_neg hw, if_neg hs1, if_neg hs2, if_neg hs3, if_neg hs4, if_neg hs5,
      if_neg hs6, if_pos hs7]
    rw [if_neg (fun hmm => hg (Or.inl hmm))]
    rfl

theorem pstate_update_self (s : PState) (c : String) (h : s.current_step = c) :
    ({ s with current_step := c } : PState) = s := by
  cases s
  cases h
  rfl

set_option maxHeartbeats 1000000 in
theorem perubatan_validation_state_preserved (ok : Bool) (s : PState) (m : Msg)
    (h : perubatan_validation_fails s m = true) :
    (tabung_perubatan_process false ok s m none).state = s := by
  simp only [perubatan_validation_fails] at h
  split_ifs at h with hg hw hs1 hs2 hs3 hs4 hs5 hs6 hs7
  · -- check_interest_response
    simp only [Bool.and_eq_true, Bool.not_eq_true', decide_eq_true_eq] at h
    obtain ⟨⟨h1, h2⟩, h3⟩ := h
    simp only [tabung_perubatan_process, perubatanMerge, reduceIte]
    rw [if_neg hg, if_neg hw, if_pos hs1]
    have h2n : ¬ (substrIn "estimate" (pyLower (perubatanExtract m)) = true) := by simp [h2]
    have h3n : ¬ (anySub ["no", "n", "not now", "later"] (pyLower (perubatanExtract m)) = true) := by
      simp [h3]
    rw [if_neg h1, if_neg h2n, if_neg h3n]
    rfl
  · -- handle_estimation_response
    simp only [Bool.and_eq_true, Bool.not_eq_true', decide_eq_true_eq] at h
    obtain ⟨h1, h2⟩ := h
    simp only [tabung_perubatan_process, perubatanMerge, reduceIte]
    rw [if_neg hg, if_neg hw, if_neg hs1, if_neg hs2, if_pos hs3]
    have h2n : ¬ (anySub ["no", "n", "not now", "later"] (pyLower (perubatanExtract m)) = true) := by
      simp [h2]
    rw [if_neg h1, if_neg h2n]
    exact pstate_update_self s _ hs3
  · -- get_coverage_level
    simp only [tabung_perubatan_process, perubatanMerge, reduceIte]
    rw [if_neg hg, if_neg hw, if_neg hs1, if_neg hs2, if_neg hs3, if_pos hs4]
    rcases hcl : perubatan_parse_coverage (pyLower (perubatanExtract m)) with _ | cl <;>
      simp only [hcl] at h ⊢
    · rfl
    · rw [decide_eq_true_eq] at h
      rw [if_neg h]
      rfl
  · -- offer_agent_contact
    simp only [Bool.and_eq_true, decide_eq_true_eq] at h
    obtain ⟨⟨⟨h1, h2⟩, h3⟩, h4⟩ := h
    simp only [tabung_perubatan_process, perubatanMerge, reduceIte]
    rw [if_neg hg, if_neg hw, if_neg hs1, if_neg hs2, if_neg hs3, if_neg hs4, if_pos hs5]
    rw [if_neg h1, if_neg h2, if_neg h3, if_neg h4]
    rfl
  · -- get_contact_info
    simp only [tabung_perubatan_process, perubatanMerge, reduceIte]
    rw [if_neg hg, if_neg hw, if_neg hs1, if_neg hs2, if_neg hs3, if_neg hs4, if_neg hs5,
      if_pos hs6]
    rw [if_pos h]
    rfl
  · -- end_conversation
    simp only [tabung_perubatan_process, perubatanMerge, reduceIte]
    rw [if_neg hg, if_neg hw, if_neg hs1, if_neg hs2, if_neg hs3, if_neg hs4, if_neg hs5,
      if_neg hs6, if_pos hs7]
    rfl

set_option maxHeartbeats 1600000 in
theorem combo_validation_state_preserved (ok : Bool) (td : Date) (s : CState) (m : Msg)
    (h : combo_validation_fails s m = true) :
    (perlindungan_combo_process false ok td s m none).state = s := by
  simp only [combo_validation_fails] at h
  by_cases hm0 : pyStrip (pyLower (comboExtract m)) = "main_menu"
  · rw [if_pos hm0] at h
    exact absurd h Bool.false_ne_true
  rw [if_neg hm0] at h
  by_cases hn1 : dictGet s.user_data "next_step" = some (Val.vStr "get_name")
  · rw [if_pos hn1] at h
    exact absurd h Bool.false_ne_true
  rw [if_neg hn1] at h
  by_cases hn2 : dictGet s.user_data "next_step" = some (Val.vStr "get_dob")
  · rw [if_pos hn2] at h
    exact absurd h Bool.false_ne_true
  rw [if_neg hn2] at h
  by_cases hn3 : dictGet s.user_data "next_step" = some (Val.vStr "get_email")
  · rw [if_pos hn3] at h
    exact absurd h Bool.false_ne_true
  rw [if_neg hn3] at h
  by_cases hn4 : dictGet s.user_data "next_step" = some (Val.vStr "get_age")
  · rw [if_pos hn4] at h
    simp only [perlindungan_combo_process, comboMerge, reduceIte]
    rw [if_neg hm0, if_neg hn1, if_neg hn2, if_neg hn3, if_pos hn4]
    rcases hpi : pyInt (comboExtract m) with _ | a <;> simp only [hpi] at h ⊢
    · rfl
    · rw [decide_eq_true_eq] at h
      have hx1 : ¬ (a < 18) := by omega
      have hx2 : ¬ (a ≤ 60) := by omega
      rw [if_neg hx1, if_neg hx2]
      rfl
  rw [if_neg hn4] at h
  by_cases hw0 : s.current_step = "welcome" ∨ pyStrip (pyLower (comboExtract m)) = "start" ∨
      pyStrip (pyLower (comboExtract m)) = "begin"
  · rw [if_pos hw0] at h
    exact absurd h Bool.false_ne_true
  rw [if_neg hw0] at h
  by_cases hc1 : s.current_step = "after_welcome"
  · rw [if_pos hc1, decide_eq_true_eq] at h
    simp only [perlindungan_combo_process, comboMerge, reduceIte]
    rw [if_neg hm0, if_neg hn1, if_neg hn2, if_neg hn3, if_neg hn4, if_neg hw0, if_pos hc1]
    have hA : ¬ (pyStrip (pyLower (comboExtract m)) = "learn_more" ∨
        pyStrip (pyLower (comboExtract m)) = "show_benefits" ∨
        pyStrip (pyLower (comboExtract m)) = "benefits" ∨
        pyStrip (pyLower (comboExtract m)) = "yes") := by tauto
    have hB : ¬ (pyStrip (pyLower (comboExtract m)) = "not_now" ∨
        pyStrip (pyLower (comboExtract m)) = "no" ∨
        pyStrip (pyLower (comboExtract m)) = "later") := by tauto
    rw [if_neg hA, if_neg hB]
    rfl
  rw [if_neg hc1] at h
  by_cases hc2 : s.current_step = "show_benefits_response"
  · rw [if_pos hc2, decide_eq_true_eq] at h
    simp only [perlindungan_combo_process, comboMerge, reduceIte]
    rw [if_neg hm0, if_neg hn1, if_neg hn2, if_neg hn3, if_neg hn4, if_neg hw0, if_neg hc1,
      if_pos hc2]
    have hA : ¬ (pyStrip (pyLower (comboExtract m)) = "show_estimate") := by tauto
    have hB : ¬ (pyStrip (pyLower (comboExtract m)) = "not_now") := by tauto
    rw [if_neg hA, if_neg hB]
    rfl
  rw [if_neg hc2] at h
  by_cases hc3 : s.current_step = "get_age_manually"
  · rw [if_pos hc3] at h
    simp only [perlindungan_combo_process, comboMerge, reduceIte]
    rw [if_neg hm0, if_neg hn1, if_neg hn2, if_neg hn3, if_neg hn4, if_neg hw0, if_neg hc1,
      if_neg hc2, if_pos hc3]
    rcases hpi : pyInt (pyStrip (pyLower (comboExtract m))) with _ | a <;>
      simp only [hpi] at h ⊢
    · rfl
    · rw [decide_eq_true_eq] at h
      have hx1 : ¬ (a < 18) := by omega
      have hx2 : ¬ (a ≤ 60) := by omega
      rw [if_neg hx1, if_neg hx2]
      rfl
  rw [if_neg hc3] at h
  by_cases hc4 : s.current_step = "get_package"
  · rw [if_pos hc4] at h
    simp only [Bool.and_eq_true, Bool.not_eq_true', decide_eq_true_eq] at h
    obtain ⟨h1, h2⟩ := h
    simp only [perlindungan_combo_process, comboMerge, reduceIte]
    rw [if_neg hm0, if_neg hn1, if_neg hn2, if_neg hn3, if_neg hn4, if_neg hw0, if_neg hc1,
      if_neg hc2, if_neg hc3, if_pos hc4]
    have hA : ¬ (valIntUnder18 (comboAgeVal s) = true) := by simp [h1]
    rw [if_neg hA, if_neg h2]
    rfl
  rw [if_neg hc4] at h
  by_cases hc5 : s.current_step = "confirm_package"
  · rw [if_pos hc5] at h
    simp only [Bool.and_eq_true, decide_eq_true_eq] at h
    obtain ⟨⟨⟨h1, h2⟩, h3⟩, h4⟩ := h
    simp only [perlindungan_combo_process, comboMerge, reduceIte]
    rw [if_neg hm0, if_neg hn1, if_neg hn2, if_neg hn3, if_neg hn4, if_neg hw0, if_neg hc1,
      if_neg hc2, if_neg hc3, if_neg hc4, if_pos hc5]
    rw [if_neg h1, if_neg h2, if_pos (And.intro h3 h4)]
    rcases hpe : combo_plan_estimate_message (comboAgeVal s) (comboTierVal s) with _ | msg <;>
      simp only [hpe] <;> rfl
  rw [if_neg hc5] at h
  by_cases hc6 : s.current_step = "follow_up_contact"
  · rw [if_pos hc6] at h
    simp only [Bool.and_eq_true, decide_eq_true_eq] at h
    obtain ⟨⟨ht, h1⟩, h2⟩ := h
    simp only [perlindungan_combo_process, comboMerge, reduceIte]
    rw [if_neg hm0, if_neg hn1, if_neg hn2, if_neg hn3, if_neg hn4, if_neg hw0, if_neg hc1,
      if_neg hc2, if_neg hc3, if_neg hc4, if_neg hc5, if_pos hc6]
    rw [if_neg (not_not_intro ht), if_neg h1, if_neg h2]
    rfl
  rw [if_neg hc6] at h
  by_cases hc7 : s.current_step = "end_conversation"
  · simp only [perlindungan_combo_process, comboMerge, reduceIte]
    rw [if_neg hm0, if_neg hn1, if_neg hn2, if_neg hn3, if_neg hn4, if_neg hw0, if_neg hc1,
      if_neg hc2, if_neg hc3, if_neg hc4, if_neg hc5, if_neg hc6, if_pos hc7]
    rfl
  rw [if_neg hc7] at h
  exact absurd h Bool.false_ne_true

/-- C6: in every campaign, an input that a step handler rejects as
invalid (unparseable or out-of-band-high value, or an option outside
the offered set, including the idle end steps that re-offer their menu)
leaves the session exactly as it was - current_step is not advanced and
no collected field is mutated - and a second submission of the same
invalid value from the resulting session returns the very same response
with the same next_step. -/
theorem C6_validation_failure_preserves_state :
    (∀ (ok : Bool) (s : WState) (m : Msg), warisan_validation_fails s m = true →
      (tabung_warisan_process false ok s m none).state = s ∧
      tabung_warisan_process false ok (tabung_warisan_process false ok s m none).state m none =
        tabung_warisan_process false ok s m none) ∧
    (∀ (ok : Bool) (s : PState) (m : Msg), perubatan_validation_fails s m = true →
      (tabung_perubatan_process false ok s m none).state = s ∧
      tabung_perubatan_process false ok (tabung_perubatan_process false ok s m none).state m none =
        tabung_perubatan_process false ok s m none) ∧
    (∀ (ok : Bool) (td : Date) (s : CState) (m : Msg), combo_validation_fails s m = true →
      (perlindungan_combo_process false ok td s m none).state = s ∧
      perlindungan_combo_process false ok td
          (perlindungan_combo_process false ok td s m none).state m none =
        perlindungan_combo_process false ok td s m none) := by
  refine ⟨fun ok s m h => ?_, fun ok s m h => ?_, fun ok td s m h => ?_⟩
  · have h1 := warisan_validation_state_preserved ok s m h
    exact ⟨h1, by rw [h1]⟩
  · have h1 := perubatan_validation_state_preserved ok s m h
    exact ⟨h1, by rw [h1]⟩
  · have h1 := combo_validation_state_preserved ok td s m h
    exact ⟨h1, by rw [h1]⟩

/-- C6 witness: the unparseable age "abc" at the Warisan get_age step is
a validation failure and the session is left untouched. -/
theorem C6_witness :
    warisan_validation_fails exampleGetAgeState (Msg.txt "abc") = true ∧
    (tabung_warisan_process false true exampleGetAgeState (Msg.txt "abc") none).state =
      exampleGetAgeState :=
  ⟨by decide,
   (C6_validation_failure_preserves_state.1 true exampleGetAgeState (Msg.txt "abc")
     (by decide)).1⟩

end AiChatBot
